import Mathlib

/-!
Shallow embedding of `sheetpr.go` from the excelize repository: the sparse-patch
property accessors for worksheet page margins and sheet properties
(`SetPageMargins`, `GetPageMargins`, `SetSheetProps`, `GetSheetProps`), together
with proofs of the behavioural properties stated in the specification.

Go `float64` values are embedded as `Rat` (the code only stores and retrieves
them, performing no floating-point arithmetic), `uint8` as `Nat`, `int` as
`Int`, and every Go pointer-typed optional field as `Option _`.  A worksheet is
a record of four optional nodes; the workbook is a map from sheet names to
worksheets.
-/

namespace Excelize

/-- Error kind surfaced by the four operations.  Modelled from the spec:
the concrete Go error values of `workSheetReader` are outside `sheetpr.go`;
the spec declares a single relevant error kind, `SheetNotFound`. -/
inductive XlsxError where
  | SheetNotFound
deriving DecidableEq

/-- Document-model node `xlsxPageMargins`: six plain float fields.  Field
types are fixed by their use in `sheetpr.go` (read with `float64Ptr`,
written by dereferencing the option). -/
structure xlsxPageMargins where
  Bottom : Rat
  Footer : Rat
  Header : Rat
  Left : Rat
  Right : Rat
  Top : Rat
deriving DecidableEq

/-- Document-model node `xlsxPrintOptions`: two plain bool fields. -/
structure xlsxPrintOptions where
  HorizontalCentered : Bool
  VerticalCentered : Bool
deriving DecidableEq

/-- Document-model node `xlsxPageSetUpPr`: two plain bool fields
(written by dereference, read with `boolPtr`). -/
structure xlsxPageSetUpPr where
  AutoPageBreaks : Bool
  FitToPage : Bool
deriving DecidableEq

/-- Document-model node `xlsxOutlinePr`: two pointer-typed bool fields
(assigned and read without dereference in `sheetpr.go`). -/
structure xlsxOutlinePr where
  SummaryBelow : Option Bool
  SummaryRight : Option Bool
deriving DecidableEq

/-- Document-model node `xlsxColor`: `Indexed`, `RGB`, `Tint` are plain
(written via dereference, read via pointer constructors), `Theme` is
pointer-typed (moved by reference in the tab-color reflection loop). -/
structure xlsxColor where
  Indexed : Int
  RGB : String
  Theme : Option Int
  Tint : Rat
deriving DecidableEq

/-- Document-model node `xlsxSheetPr`: `CodeName` is a plain string,
`EnableFormatConditionsCalculation` and `Published` are pointer-typed bools,
and the three nested nodes are optional. -/
structure xlsxSheetPr where
  CodeName : String
  EnableFormatConditionsCalculation : Option Bool
  Published : Option Bool
  PageSetUpPr : Option xlsxPageSetUpPr
  OutlinePr : Option xlsxOutlinePr
  TabColor : Option xlsxColor
deriving DecidableEq

/-- Document-model node `xlsxSheetFormatPr`: all plain fields. -/
structure xlsxSheetFormatPr where
  BaseColWidth : Nat
  DefaultColWidth : Rat
  DefaultRowHeight : Rat
  CustomHeight : Bool
  ZeroHeight : Bool
  ThickTop : Bool
  ThickBottom : Bool
deriving DecidableEq

/-- The slice of `xlsxWorksheet` touched by `sheetpr.go`: four optional
top-level nodes. -/
structure xlsxWorksheet where
  PageMargins : Option xlsxPageMargins
  PrintOptions : Option xlsxPrintOptions
  SheetPr : Option xlsxSheetPr
  SheetFormatPr : Option xlsxSheetFormatPr
deriving DecidableEq

/-- Option descriptor `PageLayoutMarginsOptions`.  Field order mirrors the Go
struct: the reflection loop in `SetPageMargins` visits fields 0 through 5,
which are the six distances. -/
structure PageLayoutMarginsOptions where
  Bottom : Option Rat
  Footer : Option Rat
  Header : Option Rat
  Left : Option Rat
  Right : Option Rat
  Top : Option Rat
  Horizontally : Option Bool
  Vertically : Option Bool
deriving DecidableEq

/-- Option descriptor `SheetPropsOptions`.  Field order mirrors the Go struct:
the tab-color reflection loop visits fields 5 through 8, the format loop
fields 11 through 17. -/
structure SheetPropsOptions where
  CodeName : Option String
  EnableFormatConditionsCalculation : Option Bool
  Published : Option Bool
  AutoPageBreaks : Option Bool
  FitToPage : Option Bool
  TabColorIndexed : Option Int
  TabColorRGB : Option String
  TabColorTheme : Option Int
  TabColorTint : Option Rat
  OutlineSummaryBelow : Option Bool
  OutlineSummaryRight : Option Bool
  BaseColWidth : Option Nat
  DefaultColWidth : Option Rat
  DefaultRowHeight : Option Rat
  CustomHeight : Option Bool
  ZeroHeight : Option Bool
  ThickTop : Option Bool
  ThickBottom : Option Bool
deriving DecidableEq

/-- Default row height written into a freshly allocated `xlsxSheetFormatPr`.
Modelled from the spec: the constant `defaultRowHeight` is declared outside
`sheetpr.go`; the spec only calls it "a documented default row height"
(its Excel value is 15). -/
def defaultRowHeight : Rat := 15

/-- Zero value of `xlsxPageMargins`, as produced by Go's `new`. -/
def newPageMargins : xlsxPageMargins :=
  { Bottom := 0, Footer := 0, Header := 0, Left := 0, Right := 0, Top := 0 }

/-- Zero value of `xlsxPrintOptions`. -/
def newPrintOptions : xlsxPrintOptions :=
  { HorizontalCentered := false, VerticalCentered := false }

/-- Zero value of `xlsxPageSetUpPr`. -/
def newPageSetUpPr : xlsxPageSetUpPr :=
  { AutoPageBreaks := false, FitToPage := false }

/-- Zero value of `xlsxOutlinePr`. -/
def newOutlinePr : xlsxOutlinePr :=
  { SummaryBelow := none, SummaryRight := none }

/-- Zero value of `xlsxColor`. -/
def newColor : xlsxColor :=
  { Indexed := 0, RGB := "", Theme := none, Tint := 0 }

/-- Zero value of `xlsxSheetPr`, as produced by `new(xlsxSheetPr)` in
`prepareSheetPr`. -/
def newSheetPr : xlsxSheetPr :=
  { CodeName := "", EnableFormatConditionsCalculation := none, Published := none,
    PageSetUpPr := none, OutlinePr := none, TabColor := none }

/-- Node allocated by `SetSheetProps` when `ws.SheetFormatPr` is nil:
`&xlsxSheetFormatPr{DefaultRowHeight: defaultRowHeight}`, remaining fields
at their zero values. -/
def newSheetFormatPr : xlsxSheetFormatPr :=
  { BaseColWidth := 0, DefaultColWidth := 0, DefaultRowHeight := defaultRowHeight,
    CustomHeight := false, ZeroHeight := false, ThickTop := false, ThickBottom := false }

/-- Zero value of `xlsxSheetFormatPr`. -/
def zeroSheetFormatPr : xlsxSheetFormatPr :=
  { BaseColWidth := 0, DefaultColWidth := 0, DefaultRowHeight := 0,
    CustomHeight := false, ZeroHeight := false, ThickTop := false, ThickBottom := false }

/-- Workbook model.  Modelled from the spec: the spec's external collaborator
is `getSheetRecord(name) -> node or NotFound`, so a workbook is a map from
sheet names to worksheet records. -/
def File : Type := String → Option xlsxWorksheet

/-- Sheet resolution.  Modelled from the spec: `workSheetReader` lives outside
`sheetpr.go` and, per the spec, resolves a sheet name to its worksheet record
or fails with `SheetNotFound`. -/
def workSheetReader (f : File) (sheet : String) : Option xlsxWorksheet :=
  f sheet

/-- In-place mutation of the worksheet reached through `workSheetReader`:
the workbook afterwards maps `sheet` to the mutated record. -/
def updateSheet (f : File) (sheet : String) (ws : xlsxWorksheet) : File :=
  fun n => if n = sheet then some ws else f n

/-- The `preparePageMargins` pattern: the existing node, or a zero-valued one
when absent.  A step writing field `X` attaches `some { pageMarginsOrNew ws
with X := v }`, which is exactly allocate-if-nil followed by a field write. -/
def pageMarginsOrNew (ws : xlsxWorksheet) : xlsxPageMargins :=
  ws.PageMargins.getD newPageMargins

/-- The `preparePrintOptions` pattern. -/
def printOptionsOrNew (ws : xlsxWorksheet) : xlsxPrintOptions :=
  ws.PrintOptions.getD newPrintOptions

/-- Iteration `i = 0` of the `SetPageMargins` reflection loop: if `Bottom` is
present, ensure `PageMargins` exists and write the value. -/
def marginStepBottom (ws : xlsxWorksheet) (o : PageLayoutMarginsOptions) : xlsxWorksheet :=
  { ws with PageMargins := match o.Bottom with
      | none => ws.PageMargins
      | some v => some { pageMarginsOrNew ws with Bottom := v } }

/-- Iteration `i = 1` of the loop (`Footer`). -/
def marginStepFooter (ws : xlsxWorksheet) (o : PageLayoutMarginsOptions) : xlsxWorksheet :=
  { ws with PageMargins := match o.Footer with
      | none => ws.PageMargins
      | some v => some { pageMarginsOrNew ws with Footer := v } }

/-- Iteration `i = 2` of the loop (`Header`). -/
def marginStepHeader (ws : xlsxWorksheet) (o : PageLayoutMarginsOptions) : xlsxWorksheet :=
  { ws with PageMargins := match o.Header with
      | none => ws.PageMargins
      | some v => some { pageMarginsOrNew ws with Header := v } }

/-- Iteration `i = 3` of the loop (`Left`). -/
def marginStepLeft (ws : xlsxWorksheet) (o : PageLayoutMarginsOptions) : xlsxWorksheet :=
  { ws with PageMargins := match o.Left with
      | none => ws.PageMargins
      | some v => some { pageMarginsOrNew ws with Left := v } }

/-- Iteration `i = 4` of the loop (`Right`). -/
def marginStepRight (ws : xlsxWorksheet) (o : PageLayoutMarginsOptions) : xlsxWorksheet :=
  { ws with PageMargins := match o.Right with
      | none => ws.PageMargins
      | some v => some { pageMarginsOrNew ws with Right := v } }

/-- Iteration `i = 5` of the loop (`Top`). -/
def marginStepTop (ws : xlsxWorksheet) (o : PageLayoutMarginsOptions) : xlsxWorksheet :=
  { ws with PageMargins := match o.Top with
      | none => ws.PageMargins
      | some v => some { pageMarginsOrNew ws with Top := v } }

/-- The six iterations of the `SetPageMargins` reflection loop, in field
order. -/
def marginDistChain (ws : xlsxWorksheet) (o : PageLayoutMarginsOptions) : xlsxWorksheet :=
  marginStepTop (marginStepRight (marginStepLeft (marginStepHeader
    (marginStepFooter (marginStepBottom ws o) o) o) o) o) o

/-- The `opts.Horizontally` branch of `SetPageMargins`. -/
def marginStepHoriz (ws : xlsxWorksheet) (o : PageLayoutMarginsOptions) : xlsxWorksheet :=
  { ws with PrintOptions := match o.Horizontally with
      | none => ws.PrintOptions
      | some v => some { printOptionsOrNew ws with HorizontalCentered := v } }

/-- The `opts.Vertically` branch of `SetPageMargins`. -/
def marginStepVert (ws : xlsxWorksheet) (o : PageLayoutMarginsOptions) : xlsxWorksheet :=
  { ws with PrintOptions := match o.Vertically with
      | none => ws.PrintOptions
      | some v => some { printOptionsOrNew ws with VerticalCentered := v } }

/-- Worksheet-level body of `SetPageMargins`: the six-margin loop followed by
the two print-centering branches. -/
def setPageMarginsWs (ws : xlsxWorksheet) (o : PageLayoutMarginsOptions) : xlsxWorksheet :=
  marginStepVert (marginStepHoriz (marginDistChain ws o) o) o

/-- The `File.SetPageMargins` method: resolve the sheet, treat a nil patch as
a successful no-op, otherwise apply the worksheet-level body in place. -/
def SetPageMargins (f : File) (sheet : String) (opts : Option PageLayoutMarginsOptions) :
    File × Option XlsxError :=
  match workSheetReader f sheet with
  | none => (f, some XlsxError.SheetNotFound)
  | some ws =>
    match opts with
    | none => (f, none)
    | some o => (updateSheet f sheet (setPageMarginsWs ws o), none)

/-- The default descriptor built at the top of `GetPageMargins`. -/
def defaultPageMarginsOpts : PageLayoutMarginsOptions :=
  { Bottom := some (mkRat 3 4), Footer := some (mkRat 3 10), Header := some (mkRat 3 10),
    Left := some (mkRat 7 10), Right := some (mkRat 7 10), Top := some (mkRat 3 4),
    Horizontally := none, Vertically := none }

/-- Worksheet-level body of `GetPageMargins`: start from the defaults, then
overwrite the six distances when `PageMargins` exists and the two centering
flags when `PrintOptions` exists. -/
def GetPageMarginsWs (ws : xlsxWorksheet) : PageLayoutMarginsOptions :=
  let opts := defaultPageMarginsOpts
  let opts := match ws.PageMargins with
    | none => opts
    | some pm =>
      { opts with Bottom := some pm.Bottom, Footer := some pm.Footer,
                  Header := some pm.Header, Left := some pm.Left,
                  Right := some pm.Right, Top := some pm.Top }
  match ws.PrintOptions with
  | none => opts
  | some po =>
    { opts with Horizontally := some po.HorizontalCentered,
                Vertically := some po.VerticalCentered }

/-- The `File.GetPageMargins` method: the defaults are returned alongside the
error when the sheet does not resolve. -/
def GetPageMargins (f : File) (sheet : String) :
    PageLayoutMarginsOptions × Option XlsxError :=
  match workSheetReader f sheet with
  | none => (defaultPageMarginsOpts, some XlsxError.SheetNotFound)
  | some ws => (GetPageMarginsWs ws, none)

/-- The `prepareSheetPr` pattern: the existing `SheetPr` node, or a
zero-valued one when absent. -/
def sheetPrOrNew (ws : xlsxWorksheet) : xlsxSheetPr :=
  ws.SheetPr.getD newSheetPr

/-- The `preparePageSetUpPr` pattern, relative to an ensured `SheetPr`. -/
def pageSetUpPrOrNew (sp : xlsxSheetPr) : xlsxPageSetUpPr :=
  sp.PageSetUpPr.getD newPageSetUpPr

/-- The `prepareOutlinePr` pattern. -/
def outlinePrOrNew (sp : xlsxSheetPr) : xlsxOutlinePr :=
  sp.OutlinePr.getD newOutlinePr

/-- The `prepareTabColor` pattern. -/
def tabColorOrNew (sp : xlsxSheetPr) : xlsxColor :=
  sp.TabColor.getD newColor

/-- The `opts.CodeName` branch of `setSheetProps`: ensure `SheetPr`, write the
dereferenced string. -/
def stepCodeName (ws : xlsxWorksheet) (o : SheetPropsOptions) : xlsxWorksheet :=
  { ws with SheetPr := match o.CodeName with
      | none => ws.SheetPr
      | some v => some { sheetPrOrNew ws with CodeName := v } }

/-- The `opts.EnableFormatConditionsCalculation` branch: the option is moved
by reference onto the pointer-typed model field. -/
def stepEFCC (ws : xlsxWorksheet) (o : SheetPropsOptions) : xlsxWorksheet :=
  { ws with SheetPr := match o.EnableFormatConditionsCalculation with
      | none => ws.SheetPr
      | some v => some { sheetPrOrNew ws with EnableFormatConditionsCalculation := some v } }

/-- The `opts.Published` branch: moved by reference. -/
def stepPublished (ws : xlsxWorksheet) (o : SheetPropsOptions) : xlsxWorksheet :=
  { ws with SheetPr := match o.Published with
      | none => ws.SheetPr
      | some v => some { sheetPrOrNew ws with Published := some v } }

/-- The `opts.AutoPageBreaks` branch: ensure `SheetPr` and `PageSetUpPr`,
write the dereferenced bool. -/
def stepAutoPageBreaks (ws : xlsxWorksheet) (o : SheetPropsOptions) : xlsxWorksheet :=
  { ws with SheetPr := match o.AutoPageBreaks with
      | none => ws.SheetPr
      | some v =>
        let sp := sheetPrOrNew ws
        some { sp with PageSetUpPr := some { pageSetUpPrOrNew sp with AutoPageBreaks := v } } }

/-- The `opts.FitToPage` branch. -/
def stepFitToPage (ws : xlsxWorksheet) (o : SheetPropsOptions) : xlsxWorksheet :=
  { ws with SheetPr := match o.FitToPage with
      | none => ws.SheetPr
      | some v =>
        let sp := sheetPrOrNew ws
        some { sp with PageSetUpPr := some { pageSetUpPrOrNew sp with FitToPage := v } } }

/-- The `opts.OutlineSummaryBelow` branch of `setSheetOutlineProps`: the
option is moved by reference onto the pointer-typed model field. -/
def stepOutlineBelow (ws : xlsxWorksheet) (o : SheetPropsOptions) : xlsxWorksheet :=
  { ws with SheetPr := match o.OutlineSummaryBelow with
      | none => ws.SheetPr
      | some v =>
        let sp := sheetPrOrNew ws
        some { sp with OutlinePr := some { outlinePrOrNew sp with SummaryBelow := some v } } }

/-- The `opts.OutlineSummaryRight` branch of `setSheetOutlineProps`. -/
def stepOutlineRight (ws : xlsxWorksheet) (o : SheetPropsOptions) : xlsxWorksheet :=
  { ws with SheetPr := match o.OutlineSummaryRight with
      | none => ws.SheetPr
      | some v =>
        let sp := sheetPrOrNew ws
        some { sp with OutlinePr := some { outlinePrOrNew sp with SummaryRight := some v } } }

/-- The `setSheetOutlineProps` method of `xlsxWorksheet`. -/
def setSheetOutlineProps (ws : xlsxWorksheet) (o : SheetPropsOptions) : xlsxWorksheet :=
  stepOutlineRight (stepOutlineBelow ws o) o

/-- Iteration `i = 5` of the tab-color reflection loop (`TabColorIndexed`,
name-stripped to `Indexed`; plain target, value copied by dereference). -/
def stepTabIndexed (ws : xlsxWorksheet) (o : SheetPropsOptions) : xlsxWorksheet :=
  { ws with SheetPr := match o.TabColorIndexed with
      | none => ws.SheetPr
      | some v =>
        let sp := sheetPrOrNew ws
        some { sp with TabColor := some { tabColorOrNew sp with Indexed := v } } }

/-- Iteration `i = 6` of the tab-color loop (`TabColorRGB` to `RGB`). -/
def stepTabRGB (ws : xlsxWorksheet) (o : SheetPropsOptions) : xlsxWorksheet :=
  { ws with SheetPr := match o.TabColorRGB with
      | none => ws.SheetPr
      | some v =>
        let sp := sheetPrOrNew ws
        some { sp with TabColor := some { tabColorOrNew sp with RGB := v } } }

/-- Iteration `i = 7` of the tab-color loop (`TabColorTheme` to `Theme`;
both sides pointer-typed, moved by reference). -/
def stepTabTheme (ws : xlsxWorksheet) (o : SheetPropsOptions) : xlsxWorksheet :=
  { ws with SheetPr := match o.TabColorTheme with
      | none => ws.SheetPr
      | some v =>
        let sp := sheetPrOrNew ws
        some { sp with TabColor := some { tabColorOrNew sp with Theme := some v } } }

/-- Iteration `i = 8` of the tab-color loop (`TabColorTint` to `Tint`). -/
def stepTabTint (ws : xlsxWorksheet) (o : SheetPropsOptions) : xlsxWorksheet :=
  { ws with SheetPr := match o.TabColorTint with
      | none => ws.SheetPr
      | some v =>
        let sp := sheetPrOrNew ws
        some { sp with TabColor := some { tabColorOrNew sp with Tint := v } } }

/-- The three direct `SheetPr` branches of `setSheetProps`, in source order. -/
def directChain (ws : xlsxWorksheet) (o : SheetPropsOptions) : xlsxWorksheet :=
  stepPublished (stepEFCC (stepCodeName ws o) o) o

/-- The two page-setup branches of `setSheetProps`, in source order. -/
def psChain (ws : xlsxWorksheet) (o : SheetPropsOptions) : xlsxWorksheet :=
  stepFitToPage (stepAutoPageBreaks ws o) o

/-- The four iterations of the tab-color reflection loop, in field order. -/
def tabChain (ws : xlsxWorksheet) (o : SheetPropsOptions) : xlsxWorksheet :=
  stepTabTint (stepTabTheme (stepTabRGB (stepTabIndexed ws o) o) o) o

/-- The `setSheetProps` method of `xlsxWorksheet`: direct fields, page-setup
fields, outline fields, then the tab-color loop. -/
def setSheetPropsWs (ws : xlsxWorksheet) (o : SheetPropsOptions) : xlsxWorksheet :=
  tabChain (setSheetOutlineProps (psChain (directChain ws o) o) o) o

/-- The unconditional `SheetFormatPr` allocation in `SetSheetProps`. -/
def ensureSheetFormatPr (ws : xlsxWorksheet) : xlsxWorksheet :=
  match ws.SheetFormatPr with
  | none => { ws with SheetFormatPr := some newSheetFormatPr }
  | some _ => ws

/-- Existing `SheetFormatPr` node or its zero value; in `SetSheetProps` the
format loop always runs after the node has been allocated. -/
def sheetFormatPrOrZero (ws : xlsxWorksheet) : xlsxSheetFormatPr :=
  ws.SheetFormatPr.getD zeroSheetFormatPr

/-- Iteration `i = 11` of the format reflection loop (`BaseColWidth`). -/
def stepBaseColWidth (ws : xlsxWorksheet) (o : SheetPropsOptions) : xlsxWorksheet :=
  { ws with SheetFormatPr := match o.BaseColWidth with
      | none => ws.SheetFormatPr
      | some v => some { sheetFormatPrOrZero ws with BaseColWidth := v } }

/-- Iteration `i = 12` of the format loop (`DefaultColWidth`). -/
def stepDefaultColWidth (ws : xlsxWorksheet) (o : SheetPropsOptions) : xlsxWorksheet :=
  { ws with SheetFormatPr := match o.DefaultColWidth with
      | none => ws.SheetFormatPr
      | some v => some { sheetFormatPrOrZero ws with DefaultColWidth := v } }

/-- Iteration `i = 13` of the format loop (`DefaultRowHeight`). -/
def stepDefaultRowHeight (ws : xlsxWorksheet) (o : SheetPropsOptions) : xlsxWorksheet :=
  { ws with SheetFormatPr := match o.DefaultRowHeight with
      | none => ws.SheetFormatPr
      | some v => some { sheetFormatPrOrZero ws with DefaultRowHeight := v } }

/-- Iteration `i = 14` of the format loop (`CustomHeight`). -/
def stepCustomHeight (ws : xlsxWorksheet) (o : SheetPropsOptions) : xlsxWorksheet :=
  { ws with SheetFormatPr := match o.CustomHeight with
      | none => ws.SheetFormatPr
      | some v => some { sheetFormatPrOrZero ws with CustomHeight := v } }

/-- Iteration `i = 15` of the format loop (`ZeroHeight`). -/
def stepZeroHeight (ws : xlsxWorksheet) (o : SheetPropsOptions) : xlsxWorksheet :=
  { ws with SheetFormatPr := match o.ZeroHeight with
      | none => ws.SheetFormatPr
      | some v => some { sheetFormatPrOrZero ws with ZeroHeight := v } }

/-- Iteration `i = 16` of the format loop (`ThickTop`). -/
def stepThickTop (ws : xlsxWorksheet) (o : SheetPropsOptions) : xlsxWorksheet :=
  { ws with SheetFormatPr := match o.ThickTop with
      | none => ws.SheetFormatPr
      | some v => some { sheetFormatPrOrZero ws with ThickTop := v } }

/-- Iteration `i = 17` of the format loop (`ThickBottom`). -/
def stepThickBottom (ws : xlsxWorksheet) (o : SheetPropsOptions) : xlsxWorksheet :=
  { ws with SheetFormatPr := match o.ThickBottom with
      | none => ws.SheetFormatPr
      | some v => some { sheetFormatPrOrZero ws with ThickBottom := v } }

/-- The seven iterations of the format reflection loop, in field order. -/
def fmtFieldChain (ws : xlsxWorksheet) (o : SheetPropsOptions) : xlsxWorksheet :=
  stepThickBottom (stepThickTop (stepZeroHeight (stepCustomHeight
    (stepDefaultRowHeight (stepDefaultColWidth (stepBaseColWidth ws o) o) o) o) o) o) o

/-- The `File.SetSheetProps` method: resolve the sheet, treat a nil patch as
a successful no-op, run `setSheetProps`, unconditionally allocate
`SheetFormatPr` if absent, then run the format loop. -/
def SetSheetProps (f : File) (sheet : String) (opts : Option SheetPropsOptions) :
    File × Option XlsxError :=
  match workSheetReader f sheet with
  | none => (f, some XlsxError.SheetNotFound)
  | some ws =>
    match opts with
    | none => (f, none)
    | some o =>
      (updateSheet f sheet (fmtFieldChain (ensureSheetFormatPr (setSheetPropsWs ws o)) o), none)

/-- The default descriptor built at the top of `GetSheetProps`. -/
def defaultSheetPropsOpts : SheetPropsOptions :=
  { CodeName := none, EnableFormatConditionsCalculation := some true,
    Published := some true, AutoPageBreaks := some true, FitToPage := none,
    TabColorIndexed := none, TabColorRGB := none, TabColorTheme := none,
    TabColorTint := none, OutlineSummaryBelow := some true,
    OutlineSummaryRight := none, BaseColWidth := some 8, DefaultColWidth := none,
    DefaultRowHeight := none, CustomHeight := none, ZeroHeight := none,
    ThickTop := none, ThickBottom := none }

/-- Worksheet-level body of `GetSheetProps`: start from the defaults and
overwrite per present node, exactly in source order. -/
def GetSheetPropsWs (ws : xlsxWorksheet) : SheetPropsOptions :=
  let opts := defaultSheetPropsOpts
  let opts := match ws.SheetPr with
    | none => opts
    | some sp =>
      let opts := { opts with CodeName := some sp.CodeName }
      let opts := match sp.EnableFormatConditionsCalculation with
        | none => opts
        | some _ =>
          { opts with EnableFormatConditionsCalculation :=
              sp.EnableFormatConditionsCalculation }
      let opts := match sp.Published with
        | none => opts
        | some _ => { opts with Published := sp.Published }
      let opts := match sp.PageSetUpPr with
        | none => opts
        | some ps =>
          { opts with AutoPageBreaks := some ps.AutoPageBreaks,
                      FitToPage := some ps.FitToPage }
      let opts := match sp.OutlinePr with
        | none => opts
        | some op =>
          { opts with OutlineSummaryBelow := op.SummaryBelow,
                      OutlineSummaryRight := op.SummaryRight }
      match sp.TabColor with
      | none => opts
      | some tc =>
        { opts with TabColorIndexed := some tc.Indexed, TabColorRGB := some tc.RGB,
                    TabColorTheme := tc.Theme, TabColorTint := some tc.Tint }
  match ws.SheetFormatPr with
  | none => opts
  | some fp =>
    { opts with BaseColWidth := some fp.BaseColWidth,
                DefaultColWidth := some fp.DefaultColWidth,
                DefaultRowHeight := some fp.DefaultRowHeight,
                CustomHeight := some fp.CustomHeight,
                ZeroHeight := some fp.ZeroHeight,
                ThickTop := some fp.ThickTop,
                ThickBottom := some fp.ThickBottom }

/-- The `File.GetSheetProps` method: the defaults are returned alongside the
error when the sheet does not resolve. -/
def GetSheetProps (f : File) (sheet : String) :
    SheetPropsOptions × Option XlsxError :=
  match workSheetReader f sheet with
  | none => (defaultSheetPropsOpts, some XlsxError.SheetNotFound)
  | some ws => (GetSheetPropsWs ws, none)


/-! Concrete example values shared by witnesses and counterexamples. -/

/-- Worksheet with all four optional nodes absent: a freshly created sheet
with no prior writes. -/
def freshWs : xlsxWorksheet :=
  { PageMargins := none, PrintOptions := none, SheetPr := none, SheetFormatPr := none }

/-- Workbook holding the single fresh sheet named Sheet1. -/
def fileSheet1 : File :=
  fun n => if n = "Sheet1" then some freshWs else none

/-- Margins patch with every field absent. -/
def emptyMarginsPatch : PageLayoutMarginsOptions :=
  { Bottom := none, Footer := none, Header := none, Left := none, Right := none,
    Top := none, Horizontally := none, Vertically := none }

/-- Sheet-properties patch with every field absent. -/
def emptyPropsPatch : SheetPropsOptions :=
  { CodeName := none, EnableFormatConditionsCalculation := none, Published := none,
    AutoPageBreaks := none, FitToPage := none, TabColorIndexed := none,
    TabColorRGB := none, TabColorTheme := none, TabColorTint := none,
    OutlineSummaryBelow := none, OutlineSummaryRight := none, BaseColWidth := none,
    DefaultColWidth := none, DefaultRowHeight := none, CustomHeight := none,
    ZeroHeight := none, ThickTop := none, ThickBottom := none }

/-- Margins patch carrying only a left margin of 1. -/
def leftOnePatch : PageLayoutMarginsOptions :=
  { emptyMarginsPatch with Left := some 1 }

/-- Sheet-properties patch carrying only a tab color RGB value. -/
def tabRGBPatch : SheetPropsOptions :=
  { emptyPropsPatch with TabColorRGB := some "FF0000" }

/-! Views of the optional `SheetPr` subtree, used to state how the apply
steps and the query read the model. -/

/-- The code-name model field, seen through the optional `SheetPr` node. -/
def codeNameView (ws : xlsxWorksheet) : Option String :=
  ws.SheetPr.map fun sp => sp.CodeName

/-- The `EnableFormatConditionsCalculation` model field, seen through
`SheetPr`. -/
def efccView (ws : xlsxWorksheet) : Option Bool :=
  ws.SheetPr.bind fun sp => sp.EnableFormatConditionsCalculation

/-- The `Published` model field, seen through `SheetPr`. -/
def publishedView (ws : xlsxWorksheet) : Option Bool :=
  ws.SheetPr.bind fun sp => sp.Published

/-- The nested page-setup node, seen through `SheetPr`. -/
def psView (ws : xlsxWorksheet) : Option xlsxPageSetUpPr :=
  ws.SheetPr.bind fun sp => sp.PageSetUpPr

/-- The nested outline node, seen through `SheetPr`. -/
def olView (ws : xlsxWorksheet) : Option xlsxOutlinePr :=
  ws.SheetPr.bind fun sp => sp.OutlinePr

/-- The nested tab-color node, seen through `SheetPr`. -/
def tcView (ws : xlsxWorksheet) : Option xlsxColor :=
  ws.SheetPr.bind fun sp => sp.TabColor

/-! Merge normal forms for the apply chains. -/

/-- Net effect of the six-margin loop on an ensured `PageMargins` node. -/
def mergePageMargins (base : xlsxPageMargins) (o : PageLayoutMarginsOptions) : xlsxPageMargins :=
  { Bottom := o.Bottom.getD base.Bottom, Footer := o.Footer.getD base.Footer,
    Header := o.Header.getD base.Header, Left := o.Left.getD base.Left,
    Right := o.Right.getD base.Right, Top := o.Top.getD base.Top }

/-- Net effect of the two centering branches on an ensured `PrintOptions`
node. -/
def mergePrintOptions (base : xlsxPrintOptions) (o : PageLayoutMarginsOptions) : xlsxPrintOptions :=
  { HorizontalCentered := o.Horizontally.getD base.HorizontalCentered,
    VerticalCentered := o.Vertically.getD base.VerticalCentered }

/-- Net effect of the two page-setup branches on an ensured node. -/
def mergePageSetUpPr (base : xlsxPageSetUpPr) (o : SheetPropsOptions) : xlsxPageSetUpPr :=
  { AutoPageBreaks := o.AutoPageBreaks.getD base.AutoPageBreaks,
    FitToPage := o.FitToPage.getD base.FitToPage }

/-- Net effect of the two outline branches on an ensured node. -/
def mergeOutlinePr (base : xlsxOutlinePr) (o : SheetPropsOptions) : xlsxOutlinePr :=
  { SummaryBelow := match o.OutlineSummaryBelow with
      | some v => some v
      | none => base.SummaryBelow,
    SummaryRight := match o.OutlineSummaryRight with
      | some v => some v
      | none => base.SummaryRight }

/-- Net effect of the tab-color loop on an ensured node. -/
def mergeTabColor (base : xlsxColor) (o : SheetPropsOptions) : xlsxColor :=
  { Indexed := o.TabColorIndexed.getD base.Indexed,
    RGB := o.TabColorRGB.getD base.RGB,
    Theme := match o.TabColorTheme with
      | some v => some v
      | none => base.Theme,
    Tint := o.TabColorTint.getD base.Tint }

/-- Net effect of the format loop on an ensured node. -/
def mergeSheetFormatPr (base : xlsxSheetFormatPr) (o : SheetPropsOptions) : xlsxSheetFormatPr :=
  { BaseColWidth := o.BaseColWidth.getD base.BaseColWidth,
    DefaultColWidth := o.DefaultColWidth.getD base.DefaultColWidth,
    DefaultRowHeight := o.DefaultRowHeight.getD base.DefaultRowHeight,
    CustomHeight := o.CustomHeight.getD base.CustomHeight,
    ZeroHeight := o.ZeroHeight.getD base.ZeroHeight,
    ThickTop := o.ThickTop.getD base.ThickTop,
    ThickBottom := o.ThickBottom.getD base.ThickBottom }


/-- Worksheet whose only present node is an already-allocated
`SheetFormatPr`. -/
def wsWithFmt : xlsxWorksheet :=
  { freshWs with SheetFormatPr := some newSheetFormatPr }

/-- Workbook holding `wsWithFmt` under the name Sheet1. -/
def fileWithFmt : File :=
  fun n => if n = "Sheet1" then some wsWithFmt else none

/-- A `SheetPr` node whose stored values are all zero or empty (or absent),
used to exhibit that node presence, not value, drives the query overwrite. -/
def zeroStoredSheetPr : xlsxSheetPr :=
  { CodeName := "", EnableFormatConditionsCalculation := some false,
    Published := some false,
    PageSetUpPr := some { AutoPageBreaks := false, FitToPage := false },
    OutlinePr := some { SummaryBelow := none, SummaryRight := none },
    TabColor := some { Indexed := 0, RGB := "", Theme := none, Tint := 0 } }

/-- Worksheet carrying `zeroStoredSheetPr`. -/
def wsZeroStored : xlsxWorksheet :=
  { freshWs with SheetPr := some zeroStoredSheetPr }

/-- Workbook holding `wsZeroStored` under the name Sheet1. -/
def fileZeroStored : File :=
  fun n => if n = "Sheet1" then some wsZeroStored else none

/-- A mutation of the workbook through one of the two apply operations. -/
inductive SheetOp where
  | setMargins : String → Option PageLayoutMarginsOptions → SheetOp
  | setProps : String → Option SheetPropsOptions → SheetOp

/-- Run one apply operation, keeping only the mutated workbook. -/
def applyOp (f : File) : SheetOp → File
  | SheetOp.setMargins s o => (SetPageMargins f s o).1
  | SheetOp.setProps s o => (SetSheetProps f s o).1

/-- Run a sequence of apply operations. -/
def applyOps (f : File) (ops : List SheetOp) : File :=
  ops.foldl applyOp f

/-- The sheet exists and its `SheetFormatPr` node is allocated. -/
def fmtAllocated (f : File) (sheet : String) : Prop :=
  ∃ ws, workSheetReader f sheet = some ws ∧ ws.SheetFormatPr.isSome = true

/-! Basic lemmas about sheet lookup after an in-place update. -/

theorem workSheetReader_updateSheet_self (f : File) (sheet : String) (ws : xlsxWorksheet) :
    workSheetReader (updateSheet f sheet ws) sheet = some ws := by
  simp [workSheetReader, updateSheet]

theorem workSheetReader_updateSheet_other (f : File) (s n : String) (ws : xlsxWorksheet)
    (h : n ≠ s) : workSheetReader (updateSheet f s ws) n = workSheetReader f n := by
  simp [workSheetReader, updateSheet, h]

theorem sheetPrOrNew_CodeName (ws : xlsxWorksheet) :
    (sheetPrOrNew ws).CodeName = (codeNameView ws).getD "" := by
  cases h : ws.SheetPr <;> simp [sheetPrOrNew, codeNameView, newSheetPr, h]

theorem sheetPrOrNew_EFCC (ws : xlsxWorksheet) :
    (sheetPrOrNew ws).EnableFormatConditionsCalculation = efccView ws := by
  cases h : ws.SheetPr <;> simp [sheetPrOrNew, efccView, newSheetPr, h]

theorem sheetPrOrNew_Published (ws : xlsxWorksheet) :
    (sheetPrOrNew ws).Published = publishedView ws := by
  cases h : ws.SheetPr <;> simp [sheetPrOrNew, publishedView, newSheetPr, h]

theorem sheetPrOrNew_PageSetUpPr (ws : xlsxWorksheet) :
    (sheetPrOrNew ws).PageSetUpPr = psView ws := by
  cases h : ws.SheetPr <;> simp [sheetPrOrNew, psView, newSheetPr, h]

theorem sheetPrOrNew_OutlinePr (ws : xlsxWorksheet) :
    (sheetPrOrNew ws).OutlinePr = olView ws := by
  cases h : ws.SheetPr <;> simp [sheetPrOrNew, olView, newSheetPr, h]

theorem sheetPrOrNew_TabColor (ws : xlsxWorksheet) :
    (sheetPrOrNew ws).TabColor = tcView ws := by
  cases h : ws.SheetPr <;> simp [sheetPrOrNew, tcView, newSheetPr, h]

/-! Closed forms for the two query bodies. -/

theorem GetPageMarginsWs_eq (ws : xlsxWorksheet) :
    GetPageMarginsWs ws =
      { Bottom := some ((ws.PageMargins.map fun pm => pm.Bottom).getD (mkRat 3 4)),
        Footer := some ((ws.PageMargins.map fun pm => pm.Footer).getD (mkRat 3 10)),
        Header := some ((ws.PageMargins.map fun pm => pm.Header).getD (mkRat 3 10)),
        Left := some ((ws.PageMargins.map fun pm => pm.Left).getD (mkRat 7 10)),
        Right := some ((ws.PageMargins.map fun pm => pm.Right).getD (mkRat 7 10)),
        Top := some ((ws.PageMargins.map fun pm => pm.Top).getD (mkRat 3 4)),
        Horizontally := ws.PrintOptions.map fun po => po.HorizontalCentered,
        Vertically := ws.PrintOptions.map fun po => po.VerticalCentered } := by
  obtain ⟨pm, po, sp, fp⟩ := ws
  cases pm <;> cases po <;> rfl

theorem GetSheetPropsWs_eq (ws : xlsxWorksheet) :
    GetSheetPropsWs ws =
      { CodeName := codeNameView ws,
        EnableFormatConditionsCalculation := some ((efccView ws).getD true),
        Published := some ((publishedView ws).getD true),
        AutoPageBreaks := some (((psView ws).map fun ps => ps.AutoPageBreaks).getD true),
        FitToPage := (psView ws).map fun ps => ps.FitToPage,
        TabColorIndexed := (tcView ws).map fun tc => tc.Indexed,
        TabColorRGB := (tcView ws).map fun tc => tc.RGB,
        TabColorTheme := (tcView ws).bind fun tc => tc.Theme,
        TabColorTint := (tcView ws).map fun tc => tc.Tint,
        OutlineSummaryBelow := match olView ws with
          | none => some true
          | some op => op.SummaryBelow,
        OutlineSummaryRight := (olView ws).bind fun op => op.SummaryRight,
        BaseColWidth := some ((ws.SheetFormatPr.map fun fp => fp.BaseColWidth).getD 8),
        DefaultColWidth := ws.SheetFormatPr.map fun fp => fp.DefaultColWidth,
        DefaultRowHeight := ws.SheetFormatPr.map fun fp => fp.DefaultRowHeight,
        CustomHeight := ws.SheetFormatPr.map fun fp => fp.CustomHeight,
        ZeroHeight := ws.SheetFormatPr.map fun fp => fp.ZeroHeight,
        ThickTop := ws.SheetFormatPr.map fun fp => fp.ThickTop,
        ThickBottom := ws.SheetFormatPr.map fun fp => fp.ThickBottom } := by
  obtain ⟨pm, po, sp, fp⟩ := ws
  cases sp with
  | none => cases fp <;> rfl
  | some sp =>
    obtain ⟨cn, ef, pb, ps, ol, tc⟩ := sp
    cases ef <;> cases pb <;> cases ps <;> cases ol <;> cases tc <;> cases fp <;> rfl

/-! Characterizations of the margin apply chain. -/

theorem marginDistChain_eq (ws : xlsxWorksheet) (o : PageLayoutMarginsOptions)
    (h : o.Bottom ≠ none ∨ o.Footer ≠ none ∨ o.Header ≠ none ∨ o.Left ≠ none ∨
      o.Right ≠ none ∨ o.Top ≠ none) :
    marginDistChain ws o =
      { ws with PageMargins := some (mergePageMargins (pageMarginsOrNew ws) o) } := by
  obtain ⟨B, F, H, L, R, T, Ho, Ve⟩ := o
  cases B <;> cases F <;> cases H <;> cases L <;> cases R <;> cases T <;>
    first
    | rfl
    | simp at h

theorem setPageMarginsWs_PageMargins (ws : xlsxWorksheet) (o : PageLayoutMarginsOptions) :
    (setPageMarginsWs ws o).PageMargins = (marginDistChain ws o).PageMargins := rfl

theorem setPageMarginsWs_PrintOptions_eq (ws : xlsxWorksheet) (o : PageLayoutMarginsOptions)
    (h : o.Horizontally ≠ none ∨ o.Vertically ≠ none) :
    (setPageMarginsWs ws o).PrintOptions =
      some (mergePrintOptions (printOptionsOrNew ws) o) := by
  obtain ⟨B, F, H, L, R, T, Ho, Ve⟩ := o
  cases Ho <;> cases Ve <;>
    first
    | rfl
    | simp at h

theorem setPageMarginsWs_SheetPr (ws : xlsxWorksheet) (o : PageLayoutMarginsOptions) :
    (setPageMarginsWs ws o).SheetPr = ws.SheetPr := rfl

theorem setPageMarginsWs_SheetFormatPr (ws : xlsxWorksheet) (o : PageLayoutMarginsOptions) :
    (setPageMarginsWs ws o).SheetFormatPr = ws.SheetFormatPr := rfl


/-! Characterizations of the sheet-properties apply chain. -/

theorem stepCodeName_codeNameView (ws : xlsxWorksheet) (o : SheetPropsOptions) (v : String)
    (h : o.CodeName = some v) : codeNameView (stepCodeName ws o) = some v := by
  simp [stepCodeName, h, codeNameView]

theorem stepEFCC_efccView (ws : xlsxWorksheet) (o : SheetPropsOptions) (v : Bool)
    (h : o.EnableFormatConditionsCalculation = some v) :
    efccView (stepEFCC ws o) = some v := by
  simp [stepEFCC, h, efccView]

theorem stepPublished_publishedView (ws : xlsxWorksheet) (o : SheetPropsOptions) (v : Bool)
    (h : o.Published = some v) : publishedView (stepPublished ws o) = some v := by
  simp [stepPublished, h, publishedView]

theorem psChain_psView_eq (ws : xlsxWorksheet) (o : SheetPropsOptions)
    (h : o.AutoPageBreaks ≠ none ∨ o.FitToPage ≠ none) :
    psView (psChain ws o) =
      some (mergePageSetUpPr ((psView ws).getD newPageSetUpPr) o) := by
  obtain ⟨cn, ef, pb, apb, ftp, tci, trgb, tth, tnt, osb, osr, bcw, dcw, drh, chh, zh, tt, tb⟩ := o
  cases apb <;> cases ftp <;> cases hsp : ws.SheetPr <;>
    simp_all [psChain, stepAutoPageBreaks, stepFitToPage, psView, sheetPrOrNew,
      newSheetPr, pageSetUpPrOrNew, newPageSetUpPr, mergePageSetUpPr]

theorem olChain_olView_eq (ws : xlsxWorksheet) (o : SheetPropsOptions)
    (h : o.OutlineSummaryBelow ≠ none ∨ o.OutlineSummaryRight ≠ none) :
    olView (setSheetOutlineProps ws o) =
      some (mergeOutlinePr ((olView ws).getD newOutlinePr) o) := by
  obtain ⟨cn, ef, pb, apb, ftp, tci, trgb, tth, tnt, osb, osr, bcw, dcw, drh, chh, zh, tt, tb⟩ := o
  cases osb <;> cases osr <;> cases hsp : ws.SheetPr <;>
    simp_all [setSheetOutlineProps, stepOutlineBelow, stepOutlineRight, olView, sheetPrOrNew,
      newSheetPr, outlinePrOrNew, newOutlinePr, mergeOutlinePr]

theorem tabChain_tcView_eq (ws : xlsxWorksheet) (o : SheetPropsOptions)
    (h : o.TabColorIndexed ≠ none ∨ o.TabColorRGB ≠ none ∨ o.TabColorTheme ≠ none ∨
      o.TabColorTint ≠ none) :
    tcView (tabChain ws o) =
      some (mergeTabColor ((tcView ws).getD newColor) o) := by
  obtain ⟨cn, ef, pb, apb, ftp, tci, trgb, tth, tnt, osb, osr, bcw, dcw, drh, chh, zh, tt, tb⟩ := o
  cases tci <;> cases trgb <;> cases tth <;> cases tnt <;> cases hsp : ws.SheetPr <;>
    simp_all [tabChain, stepTabIndexed, stepTabRGB, stepTabTheme, stepTabTint, tcView,
      sheetPrOrNew, newSheetPr, tabColorOrNew, newColor, mergeTabColor]

/-! Preservation lemmas: steps of one node group leave the other views
unchanged (a freshly allocated `SheetPr` carries absent children, so the
`bind` views are preserved even across allocation). -/

theorem stepPublished_efccView (ws : xlsxWorksheet) (o : SheetPropsOptions) :
    efccView (stepPublished ws o) = efccView ws := by
  cases h : o.Published <;> cases hsp : ws.SheetPr <;>
    simp [stepPublished, efccView, sheetPrOrNew, newSheetPr, h, hsp]

theorem psChain_efccView (ws : xlsxWorksheet) (o : SheetPropsOptions) :
    efccView (psChain ws o) = efccView ws := by
  obtain ⟨cn, ef, pb, apb, ftp, tci, trgb, tth, tnt, osb, osr, bcw, dcw, drh, chh, zh, tt, tb⟩ := o
  cases apb <;> cases ftp <;> cases hsp : ws.SheetPr <;>
    simp [psChain, stepAutoPageBreaks, stepFitToPage, efccView, sheetPrOrNew, newSheetPr, hsp]

theorem olChain_efccView (ws : xlsxWorksheet) (o : SheetPropsOptions) :
    efccView (setSheetOutlineProps ws o) = efccView ws := by
  obtain ⟨cn, ef, pb, apb, ftp, tci, trgb, tth, tnt, osb, osr, bcw, dcw, drh, chh, zh, tt, tb⟩ := o
  cases osb <;> cases osr <;> cases hsp : ws.SheetPr <;>
    simp [setSheetOutlineProps, stepOutlineBelow, stepOutlineRight, efccView, sheetPrOrNew,
      newSheetPr, hsp]

theorem tabChain_efccView (ws : xlsxWorksheet) (o : SheetPropsOptions) :
    efccView (tabChain ws o) = efccView ws := by
  obtain ⟨cn, ef, pb, apb, ftp, tci, trgb, tth, tnt, osb, osr, bcw, dcw, drh, chh, zh, tt, tb⟩ := o
  cases tci <;> cases trgb <;> cases tth <;> cases tnt <;> cases hsp : ws.SheetPr <;>
    simp [tabChain, stepTabIndexed, stepTabRGB, stepTabTheme, stepTabTint, efccView,
      sheetPrOrNew, newSheetPr, hsp]

theorem psChain_publishedView (ws : xlsxWorksheet) (o : SheetPropsOptions) :
    publishedView (psChain ws o) = publishedView ws := by
  obtain ⟨cn, ef, pb, apb, ftp, tci, trgb, tth, tnt, osb, osr, bcw, dcw, drh, chh, zh, tt, tb⟩ := o
  cases apb <;> cases ftp <;> cases hsp : ws.SheetPr <;>
    simp [psChain, stepAutoPageBreaks, stepFitToPage, publishedView, sheetPrOrNew, newSheetPr, hsp]

theorem olChain_publishedView (ws : xlsxWorksheet) (o : SheetPropsOptions) :
    publishedView (setSheetOutlineProps ws o) = publishedView ws := by
  obtain ⟨cn, ef, pb, apb, ftp, tci, trgb, tth, tnt, osb, osr, bcw, dcw, drh, chh, zh, tt, tb⟩ := o
  cases osb <;> cases osr <;> cases hsp : ws.SheetPr <;>
    simp [setSheetOutlineProps, stepOutlineBelow, stepOutlineRight, publishedView, sheetPrOrNew,
      newSheetPr, hsp]

theorem tabChain_publishedView (ws : xlsxWorksheet) (o : SheetPropsOptions) :
    publishedView (tabChain ws o) = publishedView ws := by
  obtain ⟨cn, ef, pb, apb, ftp, tci, trgb, tth, tnt, osb, osr, bcw, dcw, drh, chh, zh, tt, tb⟩ := o
  cases tci <;> cases trgb <;> cases tth <;> cases tnt <;> cases hsp : ws.SheetPr <;>
    simp [tabChain, stepTabIndexed, stepTabRGB, stepTabTheme, stepTabTint, publishedView,
      sheetPrOrNew, newSheetPr, hsp]

theorem olChain_psView (ws : xlsxWorksheet) (o : SheetPropsOptions) :
    psView (setSheetOutlineProps ws o) = psView ws := by
  obtain ⟨cn, ef, pb, apb, ftp, tci, trgb, tth, tnt, osb, osr, bcw, dcw, drh, chh, zh, tt, tb⟩ := o
  cases osb <;> cases osr <;> cases hsp : ws.SheetPr <;>
    simp [setSheetOutlineProps, stepOutlineBelow, stepOutlineRight, psView, sheetPrOrNew,
      newSheetPr, hsp]

theorem tabChain_psView (ws : xlsxWorksheet) (o : SheetPropsOptions) :
    psView (tabChain ws o) = psView ws := by
  obtain ⟨cn, ef, pb, apb, ftp, tci, trgb, tth, tnt, osb, osr, bcw, dcw, drh, chh, zh, tt, tb⟩ := o
  cases tci <;> cases trgb <;> cases tth <;> cases tnt <;> cases hsp : ws.SheetPr <;>
    simp [tabChain, stepTabIndexed, stepTabRGB, stepTabTheme, stepTabTint, psView,
      sheetPrOrNew, newSheetPr, hsp]

theorem tabChain_olView (ws : xlsxWorksheet) (o : SheetPropsOptions) :
    olView (tabChain ws o) = olView ws := by
  obtain ⟨cn, ef, pb, apb, ftp, tci, trgb, tth, tnt, osb, osr, bcw, dcw, drh, chh, zh, tt, tb⟩ := o
  cases tci <;> cases trgb <;> cases tth <;> cases tnt <;> cases hsp : ws.SheetPr <;>
    simp [tabChain, stepTabIndexed, stepTabRGB, stepTabTheme, stepTabTint, olView,
      sheetPrOrNew, newSheetPr, hsp]

theorem directChain_psView (ws : xlsxWorksheet) (o : SheetPropsOptions) :
    psView (directChain ws o) = psView ws := by
  obtain ⟨cn, ef, pb, apb, ftp, tci, trgb, tth, tnt, osb, osr, bcw, dcw, drh, chh, zh, tt, tb⟩ := o
  cases cn <;> cases ef <;> cases pb <;> cases hsp : ws.SheetPr <;>
    simp [directChain, stepCodeName, stepEFCC, stepPublished, psView, sheetPrOrNew,
      newSheetPr, hsp]

theorem directChain_olView (ws : xlsxWorksheet) (o : SheetPropsOptions) :
    olView (directChain ws o) = olView ws := by
  obtain ⟨cn, ef, pb, apb, ftp, tci, trgb, tth, tnt, osb, osr, bcw, dcw, drh, chh, zh, tt, tb⟩ := o
  cases cn <;> cases ef <;> cases pb <;> cases hsp : ws.SheetPr <;>
    simp [directChain, stepCodeName, stepEFCC, stepPublished, olView, sheetPrOrNew,
      newSheetPr, hsp]

theorem directChain_tcView (ws : xlsxWorksheet) (o : SheetPropsOptions) :
    tcView (directChain ws o) = tcView ws := by
  obtain ⟨cn, ef, pb, apb, ftp, tci, trgb, tth, tnt, osb, osr, bcw, dcw, drh, chh, zh, tt, tb⟩ := o
  cases cn <;> cases ef <;> cases pb <;> cases hsp : ws.SheetPr <;>
    simp [directChain, stepCodeName, stepEFCC, stepPublished, tcView, sheetPrOrNew,
      newSheetPr, hsp]

theorem psChain_tcView (ws : xlsxWorksheet) (o : SheetPropsOptions) :
    tcView (psChain ws o) = tcView ws := by
  obtain ⟨cn, ef, pb, apb, ftp, tci, trgb, tth, tnt, osb, osr, bcw, dcw, drh, chh, zh, tt, tb⟩ := o
  cases apb <;> cases ftp <;> cases hsp : ws.SheetPr <;>
    simp [psChain, stepAutoPageBreaks, stepFitToPage, tcView, sheetPrOrNew, newSheetPr, hsp]

theorem olChain_tcView (ws : xlsxWorksheet) (o : SheetPropsOptions) :
    tcView (setSheetOutlineProps ws o) = tcView ws := by
  obtain ⟨cn, ef, pb, apb, ftp, tci, trgb, tth, tnt, osb, osr, bcw, dcw, drh, chh, zh, tt, tb⟩ := o
  cases osb <;> cases osr <;> cases hsp : ws.SheetPr <;>
    simp [setSheetOutlineProps, stepOutlineBelow, stepOutlineRight, tcView, sheetPrOrNew,
      newSheetPr, hsp]

theorem stepEFCC_codeNameView_some (ws : xlsxWorksheet) (o : SheetPropsOptions) (a : String)
    (h : codeNameView ws = some a) : codeNameView (stepEFCC ws o) = some a := by
  cases he : o.EnableFormatConditionsCalculation <;> cases hsp : ws.SheetPr <;>
    simp_all [stepEFCC, codeNameView, sheetPrOrNew, he, hsp]

theorem stepPublished_codeNameView_some (ws : xlsxWorksheet) (o : SheetPropsOptions) (a : String)
    (h : codeNameView ws = some a) : codeNameView (stepPublished ws o) = some a := by
  cases he : o.Published <;> cases hsp : ws.SheetPr <;>
    simp_all [stepPublished, codeNameView, sheetPrOrNew, he, hsp]

theorem psChain_codeNameView_some (ws : xlsxWorksheet) (o : SheetPropsOptions) (a : String)
    (h : codeNameView ws = some a) : codeNameView (psChain ws o) = some a := by
  obtain ⟨cn, ef, pb, apb, ftp, tci, trgb, tth, tnt, osb, osr, bcw, dcw, drh, chh, zh, tt, tb⟩ := o
  cases apb <;> cases ftp <;> cases hsp : ws.SheetPr <;>
    simp_all [psChain, stepAutoPageBreaks, stepFitToPage, codeNameView, sheetPrOrNew, hsp]

theorem olChain_codeNameView_some (ws : xlsxWorksheet) (o : SheetPropsOptions) (a : String)
    (h : codeNameView ws = some a) : codeNameView (setSheetOutlineProps ws o) = some a := by
  obtain ⟨cn, ef, pb, apb, ftp, tci, trgb, tth, tnt, osb, osr, bcw, dcw, drh, chh, zh, tt, tb⟩ := o
  cases osb <;> cases osr <;> cases hsp : ws.SheetPr <;>
    simp_all [setSheetOutlineProps, stepOutlineBelow, stepOutlineRight, codeNameView,
      sheetPrOrNew, hsp]

theorem tabChain_codeNameView_some (ws : xlsxWorksheet) (o : SheetPropsOptions) (a : String)
    (h : codeNameView ws = some a) : codeNameView (tabChain ws o) = some a := by
  obtain ⟨cn, ef, pb, apb, ftp, tci, trgb, tth, tnt, osb, osr, bcw, dcw, drh, chh, zh, tt, tb⟩ := o
  cases tci <;> cases trgb <;> cases tth <;> cases tnt <;> cases hsp : ws.SheetPr <;>
    simp_all [tabChain, stepTabIndexed, stepTabRGB, stepTabTheme, stepTabTint, codeNameView,
      sheetPrOrNew, hsp]

/-! The format part of `SetSheetProps`. -/

theorem ensureSheetFormatPr_SheetFormatPr (ws : xlsxWorksheet) :
    (ensureSheetFormatPr ws).SheetFormatPr = some (ws.SheetFormatPr.getD newSheetFormatPr) := by
  cases h : ws.SheetFormatPr <;> simp [ensureSheetFormatPr, h]

theorem ensureSheetFormatPr_SheetPr (ws : xlsxWorksheet) :
    (ensureSheetFormatPr ws).SheetPr = ws.SheetPr := by
  cases h : ws.SheetFormatPr <;> simp [ensureSheetFormatPr, h]

theorem fmtFieldChain_SheetPr (ws : xlsxWorksheet) (o : SheetPropsOptions) :
    (fmtFieldChain ws o).SheetPr = ws.SheetPr := rfl

set_option maxHeartbeats 1000000 in
theorem fmtFieldChain_eq (ws : xlsxWorksheet) (o : SheetPropsOptions)
    (h : o.BaseColWidth ≠ none ∨ o.DefaultColWidth ≠ none ∨ o.DefaultRowHeight ≠ none ∨
      o.CustomHeight ≠ none ∨ o.ZeroHeight ≠ none ∨ o.ThickTop ≠ none ∨ o.ThickBottom ≠ none) :
    (fmtFieldChain ws o).SheetFormatPr =
      some (mergeSheetFormatPr (sheetFormatPrOrZero ws) o) := by
  obtain ⟨cn, ef, pb, apb, ftp, tci, trgb, tth, tnt, osb, osr, bcw, dcw, drh, chh, zh, tt, tb⟩ := o
  cases bcw <;> cases dcw <;> cases drh <;> cases chh <;> cases zh <;> cases tt <;> cases tb <;>
    simp_all [fmtFieldChain, stepBaseColWidth, stepDefaultColWidth, stepDefaultRowHeight,
      stepCustomHeight, stepZeroHeight, stepThickTop, stepThickBottom, mergeSheetFormatPr,
      sheetFormatPrOrZero]

theorem fmtFieldChain_isSome (ws : xlsxWorksheet) (o : SheetPropsOptions)
    (h : ws.SheetFormatPr.isSome = true) :
    ((fmtFieldChain ws o).SheetFormatPr).isSome = true := by
  obtain ⟨cn, ef, pb, apb, ftp, tci, trgb, tth, tnt, osb, osr, bcw, dcw, drh, chh, zh, tt, tb⟩ := o
  cases bcw <;> cases dcw <;> cases drh <;> cases chh <;> cases zh <;> cases tt <;> cases tb <;>
    simp_all [fmtFieldChain, stepBaseColWidth, stepDefaultColWidth, stepDefaultRowHeight,
      stepCustomHeight, stepZeroHeight, stepThickTop, stepThickBottom]

theorem setSheetPropsWs_SheetFormatPr (ws : xlsxWorksheet) (o : SheetPropsOptions) :
    (setSheetPropsWs ws o).SheetFormatPr = ws.SheetFormatPr := by
  simp only [setSheetPropsWs, tabChain, setSheetOutlineProps, psChain, directChain,
    stepTabTint, stepTabTheme, stepTabRGB, stepTabIndexed, stepOutlineRight, stepOutlineBelow,
    stepFitToPage, stepAutoPageBreaks, stepPublished, stepEFCC, stepCodeName]


/-! Claim theorems. -/

/-- C1.  Round-trip fidelity: for every existing sheet and every patch with
any subset of fields present, applying the patch (`SetPageMargins` or
`SetSheetProps`) and then querying the same group (`GetPageMargins` or
`GetSheetProps`) returns a descriptor in which every field present in the
patch is present and equals the patch value exactly. -/
theorem roundtrip_fidelity (f : File) (sheet : String) (ws : xlsxWorksheet)
    (hws : workSheetReader f sheet = some ws) :
    (∀ p : PageLayoutMarginsOptions,
      (∀ v, p.Bottom = some v →
        ((GetPageMargins (SetPageMargins f sheet (some p)).1 sheet).1).Bottom = some v) ∧
      (∀ v, p.Footer = some v →
        ((GetPageMargins (SetPageMargins f sheet (some p)).1 sheet).1).Footer = some v) ∧
      (∀ v, p.Header = some v →
        ((GetPageMargins (SetPageMargins f sheet (some p)).1 sheet).1).Header = some v) ∧
      (∀ v, p.Left = some v →
        ((GetPageMargins (SetPageMargins f sheet (some p)).1 sheet).1).Left = some v) ∧
      (∀ v, p.Right = some v →
        ((GetPageMargins (SetPageMargins f sheet (some p)).1 sheet).1).Right = some v) ∧
      (∀ v, p.Top = some v →
        ((GetPageMargins (SetPageMargins f sheet (some p)).1 sheet).1).Top = some v) ∧
      (∀ v, p.Horizontally = some v →
        ((GetPageMargins (SetPageMargins f sheet (some p)).1 sheet).1).Horizontally = some v) ∧
      (∀ v, p.Vertically = some v →
        ((GetPageMargins (SetPageMargins f sheet (some p)).1 sheet).1).Vertically = some v)) ∧
    (∀ p : SheetPropsOptions,
      (∀ v, p.CodeName = some v →
        ((GetSheetProps (SetSheetProps f sheet (some p)).1 sheet).1).CodeName = some v) ∧
      (∀ v, p.EnableFormatConditionsCalculation = some v →
        ((GetSheetProps (SetSheetProps f sheet (some p)).1 sheet).1).EnableFormatConditionsCalculation = some v) ∧
      (∀ v, p.Published = some v →
        ((GetSheetProps (SetSheetProps f sheet (some p)).1 sheet).1).Published = some v) ∧
      (∀ v, p.AutoPageBreaks = some v →
        ((GetSheetProps (SetSheetProps f sheet (some p)).1 sheet).1).AutoPageBreaks = some v) ∧
      (∀ v, p.FitToPage = some v →
        ((GetSheetProps (SetSheetProps f sheet (some p)).1 sheet).1).FitToPage = some v) ∧
      (∀ v, p.TabColorIndexed = some v →
        ((GetSheetProps (SetSheetProps f sheet (some p)).1 sheet).1).TabColorIndexed = some v) ∧
      (∀ v, p.TabColorRGB = some v →
        ((GetSheetProps (SetSheetProps f sheet (some p)).1 sheet).1).TabColorRGB = some v) ∧
      (∀ v, p.TabColorTheme = some v →
        ((GetSheetProps (SetSheetProps f sheet (some p)).1 sheet).1).TabColorTheme = some v) ∧
      (∀ v, p.TabColorTint = some v →
        ((GetSheetProps (SetSheetProps f sheet (some p)).1 sheet).1).TabColorTint = some v) ∧
      (∀ v, p.OutlineSummaryBelow = some v →
        ((GetSheetProps (SetSheetProps f sheet (some p)).1 sheet).1).OutlineSummaryBelow = some v) ∧
      (∀ v, p.OutlineSummaryRight = some v →
        ((GetSheetProps (SetSheetProps f sheet (some p)).1 sheet).1).OutlineSummaryRight = some v) ∧
      (∀ v, p.BaseColWidth = some v →
        ((GetSheetProps (SetSheetProps f sheet (some p)).1 sheet).1).BaseColWidth = some v) ∧
      (∀ v, p.DefaultColWidth = some v →
        ((GetSheetProps (SetSheetProps f sheet (some p)).1 sheet).1).DefaultColWidth = some v) ∧
      (∀ v, p.DefaultRowHeight = some v →
        ((GetSheetProps (SetSheetProps f sheet (some p)).1 sheet).1).DefaultRowHeight = some v) ∧
      (∀ v, p.CustomHeight = some v →
        ((GetSheetProps (SetSheetProps f sheet (some p)).1 sheet).1).CustomHeight = some v) ∧
      (∀ v, p.ZeroHeight = some v →
        ((GetSheetProps (SetSheetProps f sheet (some p)).1 sheet).1).ZeroHeight = some v) ∧
      (∀ v, p.ThickTop = some v →
        ((GetSheetProps (SetSheetProps f sheet (some p)).1 sheet).1).ThickTop = some v) ∧
      (∀ v, p.ThickBottom = some v →
        ((GetSheetProps (SetSheetProps f sheet (some p)).1 sheet).1).ThickBottom = some v)) := by
  constructor
  · intro p
    have hq : (GetPageMargins (SetPageMargins f sheet (some p)).1 sheet).1
        = GetPageMarginsWs (setPageMarginsWs ws p) := by
      simp [SetPageMargins, hws, GetPageMargins, workSheetReader_updateSheet_self]
    refine ⟨fun v hv => ?_, fun v hv => ?_, fun v hv => ?_, fun v hv => ?_,
      fun v hv => ?_, fun v hv => ?_, fun v hv => ?_, fun v hv => ?_⟩
    · simp [hq, GetPageMarginsWs_eq, setPageMarginsWs_PageMargins,
        marginDistChain_eq ws p (Or.inl (by simp [hv])), mergePageMargins, hv]
    · simp [hq, GetPageMarginsWs_eq, setPageMarginsWs_PageMargins,
        marginDistChain_eq ws p (Or.inr (Or.inl (by simp [hv]))), mergePageMargins, hv]
    · simp [hq, GetPageMarginsWs_eq, setPageMarginsWs_PageMargins,
        marginDistChain_eq ws p (Or.inr (Or.inr (Or.inl (by simp [hv])))), mergePageMargins, hv]
    · simp [hq, GetPageMarginsWs_eq, setPageMarginsWs_PageMargins,
        marginDistChain_eq ws p (Or.inr (Or.inr (Or.inr (Or.inl (by simp [hv]))))),
        mergePageMargins, hv]
    · simp [hq, GetPageMarginsWs_eq, setPageMarginsWs_PageMargins,
        marginDistChain_eq ws p (Or.inr (Or.inr (Or.inr (Or.inr (Or.inl (by simp [hv])))))),
        mergePageMargins, hv]
    · simp [hq, GetPageMarginsWs_eq, setPageMarginsWs_PageMargins,
        marginDistChain_eq ws p (Or.inr (Or.inr (Or.inr (Or.inr (Or.inr (by simp [hv])))))),
        mergePageMargins, hv]
    · simp [hq, GetPageMarginsWs_eq,
        setPageMarginsWs_PrintOptions_eq ws p (Or.inl (by simp [hv])), mergePrintOptions, hv]
    · simp [hq, GetPageMarginsWs_eq,
        setPageMarginsWs_PrintOptions_eq ws p (Or.inr (by simp [hv])), mergePrintOptions, hv]
  · intro p
    have hq : (GetSheetProps (SetSheetProps f sheet (some p)).1 sheet).1
        = GetSheetPropsWs (fmtFieldChain (ensureSheetFormatPr (setSheetPropsWs ws p)) p) := by
      simp [SetSheetProps, hws, GetSheetProps, workSheetReader_updateSheet_self]
    have hSP : (fmtFieldChain (ensureSheetFormatPr (setSheetPropsWs ws p)) p).SheetPr
        = (setSheetPropsWs ws p).SheetPr := by
      rw [fmtFieldChain_SheetPr, ensureSheetFormatPr_SheetPr]
    have hdec : setSheetPropsWs ws p
        = tabChain (setSheetOutlineProps (psChain (directChain ws p) p) p) p := rfl
    refine ⟨fun v hv => ?_, fun v hv => ?_, fun v hv => ?_, fun v hv => ?_, fun v hv => ?_,
      fun v hv => ?_, fun v hv => ?_, fun v hv => ?_, fun v hv => ?_, fun v hv => ?_,
      fun v hv => ?_, fun v hv => ?_, fun v hv => ?_, fun v hv => ?_, fun v hv => ?_,
      fun v hv => ?_, fun v hv => ?_, fun v hv => ?_⟩
    · have h1 : codeNameView (directChain ws p) = some v := by
        simp only [directChain]
        exact stepPublished_codeNameView_some _ p v
          (stepEFCC_codeNameView_some _ p v (stepCodeName_codeNameView ws p v hv))
      have h2 : codeNameView (setSheetPropsWs ws p) = some v := by
        rw [hdec]
        exact tabChain_codeNameView_some _ p v
          (olChain_codeNameView_some _ p v (psChain_codeNameView_some _ p v h1))
      have h3 : codeNameView (fmtFieldChain (ensureSheetFormatPr (setSheetPropsWs ws p)) p)
          = some v := by
        simpa [codeNameView, hSP] using h2
      simp [hq, GetSheetPropsWs_eq, h3]
    · have h1 : efccView (directChain ws p) = some v := by
        simp only [directChain]
        rw [stepPublished_efccView]
        exact stepEFCC_efccView _ p v hv
      have h2 : efccView (setSheetPropsWs ws p) = some v := by
        rw [hdec, tabChain_efccView, olChain_efccView, psChain_efccView]
        exact h1
      have h3 : efccView (fmtFieldChain (ensureSheetFormatPr (setSheetPropsWs ws p)) p)
          = some v := by
        simpa [efccView, hSP] using h2
      simp [hq, GetSheetPropsWs_eq, h3]
    · have h1 : publishedView (directChain ws p) = some v := by
        simp only [directChain]
        exact stepPublished_publishedView _ p v hv
      have h2 : publishedView (setSheetPropsWs ws p) = some v := by
        rw [hdec, tabChain_publishedView, olChain_publishedView, psChain_publishedView]
        exact h1
      have h3 : publishedView (fmtFieldChain (ensureSheetFormatPr (setSheetPropsWs ws p)) p)
          = some v := by
        simpa [publishedView, hSP] using h2
      simp [hq, GetSheetPropsWs_eq, h3]
    · have h1 : psView (psChain (directChain ws p) p)
          = some (mergePageSetUpPr ((psView (directChain ws p)).getD newPageSetUpPr) p) :=
        psChain_psView_eq _ p (Or.inl (by simp [hv]))
      have h2 : psView (setSheetPropsWs ws p)
          = some (mergePageSetUpPr ((psView (directChain ws p)).getD newPageSetUpPr) p) := by
        rw [hdec, tabChain_psView, olChain_psView]
        exact h1
      have h3 : psView (fmtFieldChain (ensureSheetFormatPr (setSheetPropsWs ws p)) p)
          = some (mergePageSetUpPr ((psView (directChain ws p)).getD newPageSetUpPr) p) := by
        simpa [psView, hSP] using h2
      simp [hq, GetSheetPropsWs_eq, h3, mergePageSetUpPr, hv]
    · have h1 : psView (psChain (directChain ws p) p)
          = some (mergePageSetUpPr ((psView (directChain ws p)).getD newPageSetUpPr) p) :=
        psChain_psView_eq _ p (Or.inr (by simp [hv]))
      have h2 : psView (setSheetPropsWs ws p)
          = some (mergePageSetUpPr ((psView (directChain ws p)).getD newPageSetUpPr) p) := by
        rw [hdec, tabChain_psView, olChain_psView]
        exact h1
      have h3 : psView (fmtFieldChain (ensureSheetFormatPr (setSheetPropsWs ws p)) p)
          = some (mergePageSetUpPr ((psView (directChain ws p)).getD newPageSetUpPr) p) := by
        simpa [psView, hSP] using h2
      simp [hq, GetSheetPropsWs_eq, h3, mergePageSetUpPr, hv]
    · have h1 : tcView (setSheetPropsWs ws p)
          = some (mergeTabColor
              ((tcView (setSheetOutlineProps (psChain (directChain ws p) p) p)).getD newColor) p) := by
        rw [hdec]
        exact tabChain_tcView_eq _ p (Or.inl (by simp [hv]))
      have h3 : tcView (fmtFieldChain (ensureSheetFormatPr (setSheetPropsWs ws p)) p)
          = some (mergeTabColor
              ((tcView (setSheetOutlineProps (psChain (directChain ws p) p) p)).getD newColor) p) := by
        simpa [tcView, hSP] using h1
      simp [hq, GetSheetPropsWs_eq, h3, mergeTabColor, hv]
    · have h1 : tcView (setSheetPropsWs ws p)
          = some (mergeTabColor
              ((tcView (setSheetOutlineProps (psChain (directChain ws p) p) p)).getD newColor) p) := by
        rw [hdec]
        exact tabChain_tcView_eq _ p (Or.inr (Or.inl (by simp [hv])))
      have h3 : tcView (fmtFieldChain (ensureSheetFormatPr (setSheetPropsWs ws p)) p)
          = some (mergeTabColor
              ((tcView (setSheetOutlineProps (psChain (directChain ws p) p) p)).getD newColor) p) := by
        simpa [tcView, hSP] using h1
      simp [hq, GetSheetPropsWs_eq, h3, mergeTabColor, hv]
    · have h1 : tcView (setSheetPropsWs ws p)
          = some (mergeTabColor
              ((tcView (setSheetOutlineProps (psChain (directChain ws p) p) p)).getD newColor) p) := by
        rw [hdec]
        exact tabChain_tcView_eq _ p (Or.inr (Or.inr (Or.inl (by simp [hv]))))
      have h3 : tcView (fmtFieldChain (ensureSheetFormatPr (setSheetPropsWs ws p)) p)
          = some (mergeTabColor
              ((tcView (setSheetOutlineProps (psChain (directChain ws p) p) p)).getD newColor) p) := by
        simpa [tcView, hSP] using h1
      simp [hq, GetSheetPropsWs_eq, h3, mergeTabColor, hv]
    · have h1 : tcView (setSheetPropsWs ws p)
          = some (mergeTabColor
              ((tcView (setSheetOutlineProps (psChain (directChain ws p) p) p)).getD newColor) p) := by
        rw [hdec]
        exact tabChain_tcView_eq _ p (Or.inr (Or.inr (Or.inr (by simp [hv]))))
      have h3 : tcView (fmtFieldChain (ensureSheetFormatPr (setSheetPropsWs ws p)) p)
          = some (mergeTabColor
              ((tcView (setSheetOutlineProps (psChain (directChain ws p) p) p)).getD newColor) p) := by
        simpa [tcView, hSP] using h1
      simp [hq, GetSheetPropsWs_eq, h3, mergeTabColor, hv]
    · have h1 : olView (setSheetOutlineProps (psChain (directChain ws p) p) p)
          = some (mergeOutlinePr ((olView (psChain (directChain ws p) p)).getD newOutlinePr) p) :=
        olChain_olView_eq _ p (Or.inl (by simp [hv]))
      have h2 : olView (setSheetPropsWs ws p)
          = some (mergeOutlinePr ((olView (psChain (directChain ws p) p)).getD newOutlinePr) p) := by
        rw [hdec, tabChain_olView]
        exact h1
      have h3 : olView (fmtFieldChain (ensureSheetFormatPr (setSheetPropsWs ws p)) p)
          = some (mergeOutlinePr ((olView (psChain (directChain ws p) p)).getD newOutlinePr) p) := by
        simpa [olView, hSP] using h2
      simp [hq, GetSheetPropsWs_eq, h3, mergeOutlinePr, hv]
    · have h1 : olView (setSheetOutlineProps (psChain (directChain ws p) p) p)
          = some (mergeOutlinePr ((olView (psChain (directChain ws p) p)).getD newOutlinePr) p) :=
        olChain_olView_eq _ p (Or.inr (by simp [hv]))
      have h2 : olView (setSheetPropsWs ws p)
          = some (mergeOutlinePr ((olView (psChain (directChain ws p) p)).getD newOutlinePr) p) := by
        rw [hdec, tabChain_olView]
        exact h1
      have h3 : olView (fmtFieldChain (ensureSheetFormatPr (setSheetPropsWs ws p)) p)
          = some (mergeOutlinePr ((olView (psChain (directChain ws p) p)).getD newOutlinePr) p) := by
        simpa [olView, hSP] using h2
      simp [hq, GetSheetPropsWs_eq, h3, mergeOutlinePr, hv]
    · have h3 : (fmtFieldChain (ensureSheetFormatPr (setSheetPropsWs ws p)) p).SheetFormatPr
          = some (mergeSheetFormatPr
              (sheetFormatPrOrZero (ensureSheetFormatPr (setSheetPropsWs ws p))) p) :=
        fmtFieldChain_eq _ p (Or.inl (by simp [hv]))
      simp [hq, GetSheetPropsWs_eq, h3, mergeSheetFormatPr, hv]
    · have h3 : (fmtFieldChain (ensureSheetFormatPr (setSheetPropsWs ws p)) p).SheetFormatPr
          = some (mergeSheetFormatPr
              (sheetFormatPrOrZero (ensureSheetFormatPr (setSheetPropsWs ws p))) p) :=
        fmtFieldChain_eq _ p (Or.inr (Or.inl (by simp [hv])))
      simp [hq, GetSheetPropsWs_eq, h3, mergeSheetFormatPr, hv]
    · have h3 : (fmtFieldChain (ensureSheetFormatPr (setSheetPropsWs ws p)) p).SheetFormatPr
          = some (mergeSheetFormatPr
              (sheetFormatPrOrZero (ensureSheetFormatPr (setSheetPropsWs ws p))) p) :=
        fmtFieldChain_eq _ p (Or.inr (Or.inr (Or.inl (by simp [hv]))))
      simp [hq, GetSheetPropsWs_eq, h3, mergeSheetFormatPr, hv]
    · have h3 : (fmtFieldChain (ensureSheetFormatPr (setSheetPropsWs ws p)) p).SheetFormatPr
          = some (mergeSheetFormatPr
              (sheetFormatPrOrZero (ensureSheetFormatPr (setSheetPropsWs ws p))) p) :=
        fmtFieldChain_eq _ p (Or.inr (Or.inr (Or.inr (Or.inl (by simp [hv])))))
      simp [hq, GetSheetPropsWs_eq, h3, mergeSheetFormatPr, hv]
    · have h3 : (fmtFieldChain (ensureSheetFormatPr (setSheetPropsWs ws p)) p).SheetFormatPr
          = some (mergeSheetFormatPr
              (sheetFormatPrOrZero (ensureSheetFormatPr (setSheetPropsWs ws p))) p) :=
        fmtFieldChain_eq _ p (Or.inr (Or.inr (Or.inr (Or.inr (Or.inl (by simp [hv]))))))
      simp [hq, GetSheetPropsWs_eq, h3, mergeSheetFormatPr, hv]
    · have h3 : (fmtFieldChain (ensureSheetFormatPr (setSheetPropsWs ws p)) p).SheetFormatPr
          = some (mergeSheetFormatPr
              (sheetFormatPrOrZero (ensureSheetFormatPr (setSheetPropsWs ws p))) p) :=
        fmtFieldChain_eq _ p (Or.inr (Or.inr (Or.inr (Or.inr (Or.inr (Or.inl (by simp [hv])))))))
      simp [hq, GetSheetPropsWs_eq, h3, mergeSheetFormatPr, hv]
    · have h3 : (fmtFieldChain (ensureSheetFormatPr (setSheetPropsWs ws p)) p).SheetFormatPr
          = some (mergeSheetFormatPr
              (sheetFormatPrOrZero (ensureSheetFormatPr (setSheetPropsWs ws p))) p) :=
        fmtFieldChain_eq _ p (Or.inr (Or.inr (Or.inr (Or.inr (Or.inr (Or.inr (by simp [hv])))))))
      simp [hq, GetSheetPropsWs_eq, h3, mergeSheetFormatPr, hv]

/-- Witness for C1 at concrete inputs: a left margin of 1 and a tab color
of FF0000 on the fresh sheet both read back exactly. -/
theorem roundtrip_fidelity_witness :
    ((GetPageMargins (SetPageMargins fileSheet1 "Sheet1" (some leftOnePatch)).1 "Sheet1").1).Left
        = some 1 ∧
    ((GetSheetProps (SetSheetProps fileSheet1 "Sheet1" (some tabRGBPatch)).1 "Sheet1").1).TabColorRGB
        = some "FF0000" :=
  ⟨((roundtrip_fidelity fileSheet1 "Sheet1" freshWs (by decide)).1 leftOnePatch).2.2.2.1
      1 (by decide),
   ((roundtrip_fidelity fileSheet1 "Sheet1" freshWs (by decide)).2 tabRGBPatch).2.2.2.2.2.2.1
      "FF0000" (by decide)⟩


/-- C2 counterexample: on the fresh sheet, applying the all-absent
sheet-properties patch changes the query result (`defaultRowHeight` goes
from absent to present), so the empty patch is not a query no-op. -/
theorem empty_patch_not_noop_cex :
    (GetSheetProps (SetSheetProps fileSheet1 "Sheet1" (some emptyPropsPatch)).1 "Sheet1").1
      ≠ (GetSheetProps fileSheet1 "Sheet1").1 := by decide

/-- C2 amended: the empty-margins patch is always a query no-op on an
existing sheet; the empty sheet-properties patch is a query no-op exactly
when the sheet's `SheetFormatPr` node is already allocated (on a sheet
without it, the apply materializes format defaults). -/
theorem empty_patch_noop_amended (f : File) (sheet : String) (ws : xlsxWorksheet)
    (hws : workSheetReader f sheet = some ws) :
    (GetPageMargins (SetPageMargins f sheet (some emptyMarginsPatch)).1 sheet).1
      = (GetPageMargins f sheet).1 ∧
    (ws.SheetFormatPr.isSome = true →
      (GetSheetProps (SetSheetProps f sheet (some emptyPropsPatch)).1 sheet).1
        = (GetSheetProps f sheet).1) := by
  constructor
  · have hm : setPageMarginsWs ws emptyMarginsPatch = ws := rfl
    simp [SetPageMargins, hws, hm, GetPageMargins, workSheetReader_updateSheet_self]
  · intro hfmt
    obtain ⟨fp, hfp⟩ := Option.isSome_iff_exists.mp hfmt
    have d1 : directChain ws emptyPropsPatch = ws := rfl
    have d2 : psChain ws emptyPropsPatch = ws := rfl
    have d3 : setSheetOutlineProps ws emptyPropsPatch = ws := rfl
    have d4 : tabChain ws emptyPropsPatch = ws := rfl
    have h1 : setSheetPropsWs ws emptyPropsPatch = ws := by
      rw [show setSheetPropsWs ws emptyPropsPatch
          = tabChain (setSheetOutlineProps (psChain (directChain ws emptyPropsPatch)
              emptyPropsPatch) emptyPropsPatch) emptyPropsPatch from rfl, d1, d2, d3, d4]
    have h2 : ensureSheetFormatPr ws = ws := by
      simp [ensureSheetFormatPr, hfp]
    have h3 : fmtFieldChain ws emptyPropsPatch = ws := rfl
    simp [SetSheetProps, hws, h1, h2, h3, GetSheetProps, workSheetReader_updateSheet_self]

/-- Witness for the amended C2: concrete no-op round trips for both groups
(the sheet-properties group on a sheet whose format node already exists). -/
theorem empty_patch_noop_amended_witness :
    (GetPageMargins (SetPageMargins fileSheet1 "Sheet1" (some emptyMarginsPatch)).1 "Sheet1").1
      = (GetPageMargins fileSheet1 "Sheet1").1 ∧
    (GetSheetProps (SetSheetProps fileWithFmt "Sheet1" (some emptyPropsPatch)).1 "Sheet1").1
      = (GetSheetProps fileWithFmt "Sheet1").1 :=
  ⟨(empty_patch_noop_amended fileSheet1 "Sheet1" freshWs (by decide)).1,
   (empty_patch_noop_amended fileWithFmt "Sheet1" wsWithFmt (by decide)).2 (by decide)⟩

/-- C3 counterexample: on the fresh sheet, a patch carrying only a tab-color
field changes the code-name model field (seen through `SheetPr`) from absent
to the empty string, so absent fields do not always leave the corresponding
model fields unchanged. -/
theorem tab_only_patch_alters_codeName_cex :
    ((SetSheetProps fileSheet1 "Sheet1" (some tabRGBPatch)).1 "Sheet1").bind codeNameView
      ≠ (fileSheet1 "Sheet1").bind codeNameView := by decide

/-- C3 amended: a `SetSheetProps` patch in which only tab-color fields are
present leaves the outline and page-setup model nodes unchanged, and leaves
the code-name model field unchanged provided the `SheetPr` node already
exists; on a sheet without `SheetPr`, the write allocates `SheetPr`,
materializing the code-name field as the empty string. -/
theorem tab_color_frame_amended (f : File) (sheet : String) (ws : xlsxWorksheet)
    (p : SheetPropsOptions) (hws : workSheetReader f sheet = some ws)
    (hcn : p.CodeName = none) (hef : p.EnableFormatConditionsCalculation = none)
    (hpb : p.Published = none) (hapb : p.AutoPageBreaks = none) (hftp : p.FitToPage = none)
    (hosb : p.OutlineSummaryBelow = none) (hosr : p.OutlineSummaryRight = none)
    (hbcw : p.BaseColWidth = none) (hdcw : p.DefaultColWidth = none)
    (hdrh : p.DefaultRowHeight = none) (hch : p.CustomHeight = none)
    (hzh : p.ZeroHeight = none) (htt : p.ThickTop = none) (htb : p.ThickBottom = none) :
    ∃ ws', workSheetReader (SetSheetProps f sheet (some p)).1 sheet = some ws' ∧
      olView ws' = olView ws ∧ psView ws' = psView ws ∧
      (ws.SheetPr.isSome = true → codeNameView ws' = codeNameView ws) := by
  refine ⟨fmtFieldChain (ensureSheetFormatPr (setSheetPropsWs ws p)) p,
    by simp [SetSheetProps, hws, workSheetReader_updateSheet_self], ?_, ?_, ?_⟩ <;>
  · obtain ⟨cn, ef, pb, apb, ftp, tci, trgb, tth, tnt, osb, osr, bcw, dcw, drh, chh, zh, tt, tb⟩ := p
    simp only at hcn hef hpb hapb hftp hosb hosr hbcw hdcw hdrh hch hzh htt htb
    subst hcn hef hpb hapb hftp hosb hosr hbcw hdcw hdrh hch hzh htt htb
    cases tci <;> cases trgb <;> cases tth <;> cases tnt <;> cases hsp : ws.SheetPr <;>
      simp_all [olView, psView, codeNameView, fmtFieldChain_SheetPr, ensureSheetFormatPr_SheetPr,
        setSheetPropsWs, tabChain, setSheetOutlineProps, psChain, directChain,
        stepCodeName, stepEFCC, stepPublished, stepAutoPageBreaks, stepFitToPage,
        stepOutlineBelow, stepOutlineRight, stepTabIndexed, stepTabRGB, stepTabTheme,
        stepTabTint, sheetPrOrNew, newSheetPr, tabColorOrNew, newColor]

/-- Witness for the amended C3: a concrete tab-color-only patch on a sheet
whose `SheetPr` already exists leaves outline, page-setup and code-name
views unchanged. -/
theorem tab_color_frame_amended_witness :
    ∃ ws', workSheetReader (SetSheetProps fileZeroStored "Sheet1" (some tabRGBPatch)).1 "Sheet1"
        = some ws' ∧
      olView ws' = olView wsZeroStored ∧ psView ws' = psView wsZeroStored ∧
      (wsZeroStored.SheetPr.isSome = true → codeNameView ws' = codeNameView wsZeroStored) :=
  tab_color_frame_amended fileZeroStored "Sheet1" wsZeroStored tabRGBPatch (by decide)
    (by decide) (by decide) (by decide) (by decide) (by decide) (by decide) (by decide)
    (by decide) (by decide) (by decide) (by decide) (by decide) (by decide) (by decide)

/-- C4.  The two apply operations fail with `SheetNotFound` exactly when the
sheet does not resolve, and on an existing sheet a nil patch succeeds and
leaves the workbook completely unchanged. -/
theorem set_error_behavior (f : File) (sheet : String) :
    (∀ mo : Option PageLayoutMarginsOptions,
      ((SetPageMargins f sheet mo).2 = some XlsxError.SheetNotFound ↔
        workSheetReader f sheet = none)) ∧
    (∀ po : Option SheetPropsOptions,
      ((SetSheetProps f sheet po).2 = some XlsxError.SheetNotFound ↔
        workSheetReader f sheet = none)) ∧
    (workSheetReader f sheet ≠ none →
      SetPageMargins f sheet none = (f, none) ∧ SetSheetProps f sheet none = (f, none)) := by
  refine ⟨fun mo => ?_, fun po => ?_, fun h => ?_⟩
  · cases hr : workSheetReader f sheet <;> cases mo <;> simp [SetPageMargins, hr]
  · cases hr : workSheetReader f sheet <;> cases po <;> simp [SetSheetProps, hr]
  · cases hr : workSheetReader f sheet
    · exact absurd hr h
    · simp [SetPageMargins, SetSheetProps, hr]

/-- Witness for C4: on a missing sheet the margins apply reports
`SheetNotFound`; on the existing fresh sheet both nil-patch applies return
the workbook unchanged with no error. -/
theorem set_error_behavior_witness :
    ((SetPageMargins fileSheet1 "Nope" none).2 = some XlsxError.SheetNotFound) ∧
    SetPageMargins fileSheet1 "Sheet1" none = (fileSheet1, none) ∧
    SetSheetProps fileSheet1 "Sheet1" none = (fileSheet1, none) :=
  ⟨((set_error_behavior fileSheet1 "Nope").1 none).mpr (by decide),
   ((set_error_behavior fileSheet1 "Sheet1").2.2 (by decide)).1,
   ((set_error_behavior fileSheet1 "Sheet1").2.2 (by decide)).2⟩

/-- C5.  On a sheet with none of the four optional nodes, `GetPageMargins`
returns left 0.7, right 0.7, top 0.75, bottom 0.75, header 0.3, footer 0.3
with both centering flags absent, and `GetSheetProps` returns
`enableFormatConditionsCalculation`, `published`, `autoPageBreaks` and
`outlineSummaryBelow` true and `baseColWidth` 8 with all other fields
absent. -/
theorem fresh_sheet_defaults (f : File) (sheet : String) (ws : xlsxWorksheet)
    (hws : workSheetReader f sheet = some ws) (hpm : ws.PageMargins = none)
    (hpo : ws.PrintOptions = none) (hsp : ws.SheetPr = none)
    (hfp : ws.SheetFormatPr = none) :
    GetPageMargins f sheet =
      ({ Bottom := some (mkRat 3 4), Footer := some (mkRat 3 10),
         Header := some (mkRat 3 10), Left := some (mkRat 7 10),
         Right := some (mkRat 7 10), Top := some (mkRat 3 4),
         Horizontally := none, Vertically := none }, none) ∧
    GetSheetProps f sheet =
      ({ CodeName := none, EnableFormatConditionsCalculation := some true,
         Published := some true, AutoPageBreaks := some true, FitToPage := none,
         TabColorIndexed := none, TabColorRGB := none, TabColorTheme := none,
         TabColorTint := none, OutlineSummaryBelow := some true,
         OutlineSummaryRight := none, BaseColWidth := some 8, DefaultColWidth := none,
         DefaultRowHeight := none, CustomHeight := none, ZeroHeight := none,
         ThickTop := none, ThickBottom := none }, none) := by
  constructor
  · simp [GetPageMargins, hws, GetPageMarginsWs_eq, hpm, hpo]
  · simp [GetSheetProps, hws, GetSheetPropsWs_eq, codeNameView, efccView, publishedView,
      psView, olView, tcView, hsp, hfp]

/-- Witness for C5 on the concrete fresh sheet. -/
theorem fresh_sheet_defaults_witness :
    GetPageMargins fileSheet1 "Sheet1" =
      ({ Bottom := some (mkRat 3 4), Footer := some (mkRat 3 10),
         Header := some (mkRat 3 10), Left := some (mkRat 7 10),
         Right := some (mkRat 7 10), Top := some (mkRat 3 4),
         Horizontally := none, Vertically := none }, none) ∧
    GetSheetProps fileSheet1 "Sheet1" =
      ({ CodeName := none, EnableFormatConditionsCalculation := some true,
         Published := some true, AutoPageBreaks := some true, FitToPage := none,
         TabColorIndexed := none, TabColorRGB := none, TabColorTheme := none,
         TabColorTint := none, OutlineSummaryBelow := some true,
         OutlineSummaryRight := none, BaseColWidth := some 8, DefaultColWidth := none,
         DefaultRowHeight := none, CustomHeight := none, ZeroHeight := none,
         ThickTop := none, ThickBottom := none }, none) :=
  fresh_sheet_defaults fileSheet1 "Sheet1" freshWs (by decide) (by decide) (by decide)
    (by decide) (by decide)

theorem setSheetProps_some_fmtAllocated (f : File) (sheet : String) (ws : xlsxWorksheet)
    (o : SheetPropsOptions) (hws : workSheetReader f sheet = some ws) :
    fmtAllocated (SetSheetProps f sheet (some o)).1 sheet := by
  refine ⟨fmtFieldChain (ensureSheetFormatPr (setSheetPropsWs ws o)) o,
    by simp [SetSheetProps, hws, workSheetReader_updateSheet_self], ?_⟩
  exact fmtFieldChain_isSome _ o (by simp [ensureSheetFormatPr_SheetFormatPr])

theorem applyOp_preserves_fmtAllocated (f : File) (sheet : String) (op : SheetOp)
    (h : fmtAllocated f sheet) : fmtAllocated (applyOp f op) sheet := by
  obtain ⟨ws, hws, hfmt⟩ := h
  cases op with
  | setMargins s mo =>
    cases hr : workSheetReader f s with
    | none => exact ⟨ws, by simp [applyOp, SetPageMargins, hr, hws], hfmt⟩
    | some ws2 =>
      cases mo with
      | none => exact ⟨ws, by simp [applyOp, SetPageMargins, hr, hws], hfmt⟩
      | some o =>
        by_cases hs : sheet = s
        · subst hs
          have hw2 : ws2 = ws := by
            rw [hws] at hr
            exact (Option.some.inj hr).symm
          subst hw2
          refine ⟨setPageMarginsWs ws2 o,
            by simp [applyOp, SetPageMargins, hr, workSheetReader_updateSheet_self], ?_⟩
          rw [setPageMarginsWs_SheetFormatPr]
          exact hfmt
        · exact ⟨ws,
            by simp [applyOp, SetPageMargins, hr,
              workSheetReader_updateSheet_other f s sheet _ hs, hws], hfmt⟩
  | setProps s po =>
    cases hr : workSheetReader f s with
    | none => exact ⟨ws, by simp [applyOp, SetSheetProps, hr, hws], hfmt⟩
    | some ws2 =>
      cases po with
      | none => exact ⟨ws, by simp [applyOp, SetSheetProps, hr, hws], hfmt⟩
      | some o =>
        by_cases hs : sheet = s
        · subst hs
          simpa [applyOp] using setSheetProps_some_fmtAllocated f sheet ws2 o hr
        · exact ⟨ws,
            by simp [applyOp, SetSheetProps, hr,
              workSheetReader_updateSheet_other f s sheet _ hs, hws], hfmt⟩

theorem applyOps_preserves_fmtAllocated (sheet : String) (ops : List SheetOp) :
    ∀ f : File, fmtAllocated f sheet → fmtAllocated (applyOps f ops) sheet := by
  induction ops with
  | nil => intro f h; simpa [applyOps] using h
  | cons op ops ih =>
    intro f h
    simpa [applyOps] using ih _ (applyOp_preserves_fmtAllocated f sheet op h)

/-- C6.  Once `SetSheetProps` has run with any non-nil patch on an existing
sheet, every later `GetSheetProps` on that sheet — after any further
sequence of apply operations — reports `defaultRowHeight` as present:
the format node allocation is unconditional and never undone. -/
theorem format_node_monotonic (f : File) (sheet : String) (ws : xlsxWorksheet)
    (p : SheetPropsOptions) (ops : List SheetOp)
    (hws : workSheetReader f sheet = some ws) :
    (((GetSheetProps (applyOps (SetSheetProps f sheet (some p)).1 ops) sheet).1).DefaultRowHeight).isSome
      = true := by
  have h := applyOps_preserves_fmtAllocated sheet ops _
    (setSheetProps_some_fmtAllocated f sheet ws p hws)
  obtain ⟨ws2, hws2, hfmt⟩ := h
  obtain ⟨fp, hfp⟩ := Option.isSome_iff_exists.mp hfmt
  simp [GetSheetProps, hws2, GetSheetPropsWs_eq, hfp]

/-- Witness for C6: a no-field patch followed by another apply operation
still leaves `defaultRowHeight` present. -/
theorem format_node_monotonic_witness :
    (((GetSheetProps (applyOps (SetSheetProps fileSheet1 "Sheet1" (some emptyPropsPatch)).1
        [SheetOp.setMargins "Sheet1" (some leftOnePatch)]) "Sheet1").1).DefaultRowHeight).isSome
      = true :=
  format_node_monotonic fileSheet1 "Sheet1" freshWs emptyPropsPatch
    [SheetOp.setMargins "Sheet1" (some leftOnePatch)] (by decide)

/-- C7 counterexample: after setting only the left margin on the fresh
sheet, the right margin reads back 0, not the 0.7 claimed default — the
freshly allocated `PageMargins` node is zero-filled and a present node
overwrites all six defaults. -/
theorem margins_scenario_cex :
    ((GetPageMargins (SetPageMargins fileSheet1 "Sheet1" (some leftOnePatch)).1 "Sheet1").1).Left
        = some 1 ∧
    ((GetPageMargins (SetPageMargins fileSheet1 "Sheet1" (some leftOnePatch)).1 "Sheet1").1).Right
        ≠ some (mkRat 7 10) :=
  ⟨by decide, by decide⟩

/-- C7 amended: on the fresh sheet, `SetPageMargins` with only left 1.0
followed by `GetPageMargins` returns left 1.0 and right 0 (the zero value
stored in the freshly allocated node, which overwrites the 0.7 default). -/
theorem margins_scenario_amended :
    ((GetPageMargins (SetPageMargins fileSheet1 "Sheet1" (some leftOnePatch)).1 "Sheet1").1).Left
        = some 1 ∧
    ((GetPageMargins (SetPageMargins fileSheet1 "Sheet1" (some leftOnePatch)).1 "Sheet1").1).Right
        = some 0 :=
  ⟨by decide, by decide⟩

/-- C8 counterexample: after a tab-color-only patch on the fresh sheet,
`tabColorIndexed` and `codeName` are both present (with zero and empty
values), not absent as claimed. -/
theorem tab_color_scenario_cex :
    ((GetSheetProps (SetSheetProps fileSheet1 "Sheet1" (some tabRGBPatch)).1 "Sheet1").1).TabColorIndexed
        ≠ none ∧
    ((GetSheetProps (SetSheetProps fileSheet1 "Sheet1" (some tabRGBPatch)).1 "Sheet1").1).CodeName
        ≠ none :=
  ⟨by decide, by decide⟩

/-- C8 amended: on the fresh sheet, setting only `tabColorRGB` to FF0000
and querying returns `tabColorRGB` FF0000, `tabColorIndexed` present with
value 0, and `codeName` present with the empty string (the allocated
`SheetPr` and tab-color nodes overwrite those fields with stored zero
values). -/
theorem tab_color_scenario_amended :
    ((GetSheetProps (SetSheetProps fileSheet1 "Sheet1" (some tabRGBPatch)).1 "Sheet1").1).TabColorRGB
        = some "FF0000" ∧
    ((GetSheetProps (SetSheetProps fileSheet1 "Sheet1" (some tabRGBPatch)).1 "Sheet1").1).TabColorIndexed
        = some 0 ∧
    ((GetSheetProps (SetSheetProps fileSheet1 "Sheet1" (some tabRGBPatch)).1 "Sheet1").1).CodeName
        = some "" :=
  ⟨by decide, by decide, by decide⟩

/-- C9.  In `GetSheetProps`, every present node overwrites its descriptor
fields with exactly the stored values — zero or empty included: a present
`SheetPr` always reports its code name; a stored optional flag is copied
whenever present, even false; present page-setup, outline and tab-color
nodes copy all their fields unconditionally. -/
theorem node_presence_overwrite (f : File) (sheet : String) (ws : xlsxWorksheet)
    (sp : xlsxSheetPr) (hws : workSheetReader f sheet = some ws)
    (hsp : ws.SheetPr = some sp) :
    ((GetSheetProps f sheet).1).CodeName = some sp.CodeName ∧
    (∀ b, sp.EnableFormatConditionsCalculation = some b →
      ((GetSheetProps f sheet).1).EnableFormatConditionsCalculation = some b) ∧
    (∀ b, sp.Published = some b → ((GetSheetProps f sheet).1).Published = some b) ∧
    (∀ ps, sp.PageSetUpPr = some ps →
      ((GetSheetProps f sheet).1).AutoPageBreaks = some ps.AutoPageBreaks ∧
      ((GetSheetProps f sheet).1).FitToPage = some ps.FitToPage) ∧
    (∀ op, sp.OutlinePr = some op →
      ((GetSheetProps f sheet).1).OutlineSummaryBelow = op.SummaryBelow ∧
      ((GetSheetProps f sheet).1).OutlineSummaryRight = op.SummaryRight) ∧
    (∀ tc, sp.TabColor = some tc →
      ((GetSheetProps f sheet).1).TabColorIndexed = some tc.Indexed ∧
      ((GetSheetProps f sheet).1).TabColorRGB = some tc.RGB ∧
      ((GetSheetProps f sheet).1).TabColorTheme = tc.Theme ∧
      ((GetSheetProps f sheet).1).TabColorTint = some tc.Tint) := by
  have hg : (GetSheetProps f sheet).1 = GetSheetPropsWs ws := by
    simp [GetSheetProps, hws]
  refine ⟨?_, fun b hb => ?_, fun b hb => ?_, fun ps hps => ⟨?_, ?_⟩, fun op hop => ⟨?_, ?_⟩,
    fun tc htc => ⟨?_, ?_, ?_, ?_⟩⟩
  · simp [hg, GetSheetPropsWs_eq, codeNameView, hsp]
  · simp [hg, GetSheetPropsWs_eq, efccView, hsp, hb]
  · simp [hg, GetSheetPropsWs_eq, publishedView, hsp, hb]
  · simp [hg, GetSheetPropsWs_eq, psView, hsp, hps]
  · simp [hg, GetSheetPropsWs_eq, psView, hsp, hps]
  · simp [hg, GetSheetPropsWs_eq, olView, hsp, hop]
  · simp [hg, GetSheetPropsWs_eq, olView, hsp, hop]
  · simp [hg, GetSheetPropsWs_eq, tcView, hsp, htc]
  · simp [hg, GetSheetPropsWs_eq, tcView, hsp, htc]
  · simp [hg, GetSheetPropsWs_eq, tcView, hsp, htc]
  · simp [hg, GetSheetPropsWs_eq, tcView, hsp, htc]

/-- Witness for C9 on a `SheetPr` node whose stored values are all zero or
empty: the query reports exactly those zero values, not the defaults. -/
theorem node_presence_overwrite_witness :
    ((GetSheetProps fileZeroStored "Sheet1").1).CodeName = some "" ∧
    ((GetSheetProps fileZeroStored "Sheet1").1).EnableFormatConditionsCalculation = some false ∧
    ((GetSheetProps fileZeroStored "Sheet1").1).AutoPageBreaks = some false ∧
    ((GetSheetProps fileZeroStored "Sheet1").1).TabColorIndexed = some 0 ∧
    ((GetSheetProps fileZeroStored "Sheet1").1).TabColorRGB = some "" :=
  have h := node_presence_overwrite fileZeroStored "Sheet1" wsZeroStored zeroStoredSheetPr
    (by decide) (by decide)
  ⟨h.1, h.2.1 false (by decide),
   (h.2.2.2.1 { AutoPageBreaks := false, FitToPage := false } (by decide)).1,
   (h.2.2.2.2.2 { Indexed := 0, RGB := "", Theme := none, Tint := 0 } (by decide)).1,
   (h.2.2.2.2.2 { Indexed := 0, RGB := "", Theme := none, Tint := 0 } (by decide)).2.1⟩

/-- C10.  When the sheet does not resolve, both query operations return the
fully populated default descriptor alongside the `SheetNotFound` error,
not an empty descriptor. -/
theorem error_path_defaults (f : File) (sheet : String)
    (h : workSheetReader f sheet = none) :
    GetPageMargins f sheet =
      ({ Bottom := some (mkRat 3 4), Footer := some (mkRat 3 10),
         Header := some (mkRat 3 10), Left := some (mkRat 7 10),
         Right := some (mkRat 7 10), Top := some (mkRat 3 4),
         Horizontally := none, Vertically := none }, some XlsxError.SheetNotFound) ∧
    GetSheetProps f sheet =
      ({ CodeName := none, EnableFormatConditionsCalculation := some true,
         Published := some true, AutoPageBreaks := some true, FitToPage := none,
         TabColorIndexed := none, TabColorRGB := none, TabColorTheme := none,
         TabColorTint := none, OutlineSummaryBelow := some true,
         OutlineSummaryRight := none, BaseColWidth := some 8, DefaultColWidth := none,
         DefaultRowHeight := none, CustomHeight := none, ZeroHeight := none,
         ThickTop := none, ThickBottom := none }, some XlsxError.SheetNotFound) := by
  constructor
  · simp [GetPageMargins, h, defaultPageMarginsOpts]
  · simp [GetSheetProps, h, defaultSheetPropsOpts]

/-- Witness for C10 on a name that does not resolve. -/
theorem error_path_defaults_witness :
    GetPageMargins fileSheet1 "Nope" =
      ({ Bottom := some (mkRat 3 4), Footer := some (mkRat 3 10),
         Header := some (mkRat 3 10), Left := some (mkRat 7 10),
         Right := some (mkRat 7 10), Top := some (mkRat 3 4),
         Horizontally := none, Vertically := none }, some XlsxError.SheetNotFound) ∧
    GetSheetProps fileSheet1 "Nope" =
      ({ CodeName := none, EnableFormatConditionsCalculation := some true,
         Published := some true, AutoPageBreaks := some true, FitToPage := none,
         TabColorIndexed := none, TabColorRGB := none, TabColorTheme := none,
         TabColorTint := none, OutlineSummaryBelow := some true,
         OutlineSummaryRight := none, BaseColWidth := some 8, DefaultColWidth := none,
         DefaultRowHeight := none, CustomHeight := none, ZeroHeight := none,
         ThickTop := none, ThickBottom := none }, some XlsxError.SheetNotFound) :=
  error_path_defaults fileSheet1 "Nope" (by decide)

end Excelize
